import Mathlib

/-!
Shallow embedding of the abacus_indexer core
(services/abacus_indexer: core/outlier_filter.py, core/bar_builder.py,
core/constants.py, aggregator/composite_aggregator.py, backfill/service.py,
persistence/repository.py) together with proofs about the composite-bar
pipeline.  Python floats are modelled by rationals, Python ints by
integers; lists keep the iteration order of the source loops.
-/

set_option maxHeartbeats 1000000

namespace Abacus

/-- Venue identifiers (core/types.py VenueId). -/
inductive VenueId where
  | binance
  | coinbase
  | kraken
  | okx
  | bybit
deriving DecidableEq, Repr

/-- Market type (core/types.py MarketType). -/
inductive MarketType where
  | spot
  | perp
deriving DecidableEq, Repr

/-- Asset identifiers (core/types.py AssetId). -/
inductive AssetId where
  | btc
  | eth
deriving DecidableEq, Repr

/-- Exclusion reasons (core/types.py ExcludeReason). -/
inductive ExcludeReason where
  | disconnected
  | stale
  | outlier
  | no_data
  | backfill_unavailable
deriving DecidableEq, Repr

/-- Degraded reasons (core/types.py DegradedReason). -/
inductive DegradedReason where
  | none
  | single_source
  | below_preferred_quorum
  | venue_disconnected
  | venue_stale
  | venue_outlier
deriving DecidableEq, Repr

/-- Input to the composite filter (core/outlier_filter.py VenuePriceInput). -/
structure VenuePriceInput where
  venue : VenueId
  price : Option ℚ
  last_update_ms : Option ℤ
  is_connected : Bool
deriving DecidableEq, Repr

/-- Per-venue contribution record (core/types.py VenueContribution). -/
structure VenueContribution where
  venue : VenueId
  price : Option ℚ
  included : Bool
  exclude_reason : Option ExcludeReason
  deviation_bps : Option ℚ
deriving DecidableEq, Repr

/-- Result of filter_outliers (core/outlier_filter.py CompositeResult). -/
structure CompositeResult where
  price : Option ℚ
  venues : List VenueContribution
  included_count : ℕ
  total_count : ℕ
  degraded : Bool
  degraded_reason : DegradedReason
  is_gap : Bool
deriving DecidableEq, Repr

/-- Quorum policy (core/constants.py QuorumPolicy). -/
structure QuorumPolicy where
  min_quorum : ℕ
  preferred_quorum : ℕ
  allow_single_source : Bool
deriving DecidableEq, Repr

/-- core/constants.py: the production quorum policy, which is the active one
(CURRENT_QUORUM_POLICY = "production"). -/
def get_quorum_config : QuorumPolicy :=
  { min_quorum := 2, preferred_quorum := 3, allow_single_source := false }

/-- core/constants.py OUTLIER_THRESHOLD_BPS (frozen at 100). -/
def OUTLIER_THRESHOLD_BPS : ℚ := 100

/-- core/constants.py STALE_THRESHOLDS_MS via get_stale_threshold; the table
covers every venue for both markets, so the 30 000 ms default never fires. -/
def get_stale_threshold (venue : VenueId) (mt : MarketType) : ℤ :=
  match venue, mt with
  | .binance, .spot => 10000
  | .binance, .perp => 10000
  | .coinbase, .spot => 30000
  | .coinbase, .perp => 30000
  | .kraken, .spot => 30000
  | .kraken, .perp => 30000
  | .okx, .spot => 15000
  | .okx, .perp => 15000
  | .bybit, .spot => 15000
  | .bybit, .perp => 15000

/-- The sorted copy of a price list (statistics.median sorts its input). -/
def sortPrices (l : List ℚ) : List ℚ :=
  l.insertionSort (fun a b => a ≤ b)

/-- Median of an already sorted list: middle element for odd length, mean of
the two middles for even length (statistics.median). -/
def medianSorted (s : List ℚ) : ℚ :=
  if s.length % 2 = 1 then s.getD (s.length / 2) 0
  else (s.getD (s.length / 2 - 1) 0 + s.getD (s.length / 2) 0) / 2

/-- core/outlier_filter.py calculate_median: none on an empty list, else the
odd/even median of the sorted values. -/
def calculate_median (prices : List ℚ) : Option ℚ :=
  if prices = [] then none
  else some (medianSorted (sortPrices prices))

/-- core/outlier_filter.py calculate_deviation_bps: absolute deviation from
the median in basis points, 0 when the median is 0. -/
def calculate_deviation_bps (price median : ℚ) : ℚ :=
  if median = 0 then 0
  else |(price - median) / median| * 10000

/-- Phase 1 of filter_outliers, for one input: the initial contribution
record and, when the venue survives the DISCONNECTED / NO_DATA / STALE
checks, its (venue, price) candidate pair. -/
def phase1Step (now : ℤ) (mt : MarketType) (inp : VenuePriceInput) :
    VenueContribution × Option (VenueId × ℚ) :=
  let base : VenueContribution :=
    { venue := inp.venue, price := inp.price, included := false,
      exclude_reason := none, deviation_bps := none }
  if inp.is_connected = false then
    ({ base with exclude_reason := some .disconnected }, none)
  else
    match inp.price, inp.last_update_ms with
    | some p, some lu =>
        if now - lu > get_stale_threshold inp.venue mt then
          ({ base with exclude_reason := some .stale }, none)
        else (base, some (inp.venue, p))
    | _, _ => ({ base with exclude_reason := some .no_data }, none)

/-- The contribution list after phase 1 (loop appends one record per input,
in input order). -/
def contribs0Of (inputs : List VenuePriceInput) (now : ℤ) (mt : MarketType) :
    List VenueContribution :=
  inputs.map (fun i => (phase1Step now mt i).1)

/-- The candidate list after phase 1 (survivors of the DISCONNECTED /
NO_DATA / STALE checks, in input order). -/
def candidatesOf (inputs : List VenuePriceInput) (now : ℤ) (mt : MarketType) :
    List (VenueId × ℚ) :=
  inputs.filterMap (fun i => (phase1Step now mt i).2)

/-- In-place update of the first contribution with the given venue
(Python: next(c for c in contributions if c.venue == venue)). -/
def updateFirst (v : VenueId) (f : VenueContribution → VenueContribution) :
    List VenueContribution → List VenueContribution
  | [] => []
  | c :: rest =>
      if c.venue = v then f c :: rest else c :: updateFirst v f rest

/-- The record mutation phase 3 performs on a candidate's contribution:
with no median the candidate is included with deviation 0; otherwise the
deviation is recorded and the candidate is marked OUTLIER when it exceeds
the threshold (the included branch does not clear a previously set
exclude_reason, exactly as the source mutates the record). -/
def candUpdate (m : Option ℚ) (p : ℚ) (c : VenueContribution) :
    VenueContribution :=
  match m with
  | none => { c with included := true, deviation_bps := some 0 }
  | some mv =>
      let d := calculate_deviation_bps p mv
      if d > OUTLIER_THRESHOLD_BPS then
        { c with deviation_bps := some d, exclude_reason := some .outlier,
                 included := false }
      else { c with deviation_bps := some d, included := true }

/-- Phase 3 of filter_outliers for one candidate: mutate the first
contribution carrying the candidate's venue. -/
def applyCand (m : Option ℚ) (cs : List VenueContribution)
    (vp : VenueId × ℚ) : List VenueContribution :=
  updateFirst vp.1 (candUpdate m vp.2) cs

/-- The contribution list after the phase-3 loop over all candidates. -/
def phase3Contribs (m : Option ℚ) (cs : List VenueContribution)
    (cands : List (VenueId × ℚ)) : List VenueContribution :=
  cands.foldl (applyCand m) cs

/-- Whether a candidate price is appended to included_prices in phase 3:
always when there is no median, otherwise iff its deviation does not exceed
the outlier threshold. -/
def keepPrice (m : Option ℚ) (p : ℚ) : Bool :=
  match m with
  | none => true
  | some mv => !(calculate_deviation_bps p mv > OUTLIER_THRESHOLD_BPS)

/-- The included_prices list accumulated by the phase-3 loop. -/
def includedPricesOf (m : Option ℚ) (cands : List (VenueId × ℚ)) : List ℚ :=
  cands.filterMap (fun vp => if keepPrice m vp.2 then some vp.2 else none)

/-- The included_venues list accumulated by the phase-3 loop. -/
def includedVenuesOf (m : Option ℚ) (cands : List (VenueId × ℚ)) :
    List VenueId :=
  cands.filterMap (fun vp => if keepPrice m vp.2 then some vp.1 else none)

/-- core/outlier_filter.py _derive_degraded_reason. -/
def derive_degraded_reason (contribs : List VenueContribution)
    (degraded is_gap : Bool) (included_count : ℕ) : DegradedReason :=
  if degraded = false then .none
  else
    let has_disconnected :=
      contribs.any (fun c => c.exclude_reason = some .disconnected)
    let has_no_data := contribs.any (fun c => c.exclude_reason = some .no_data)
    let has_stale := contribs.any (fun c => c.exclude_reason = some .stale)
    let has_outlier := contribs.any (fun c => c.exclude_reason = some .outlier)
    if is_gap then
      if has_disconnected then .venue_disconnected
      else if has_no_data || has_stale then .venue_stale
      else if has_outlier then .venue_outlier
      else if included_count = 1 then .single_source
      else .below_preferred_quorum
    else
      if has_disconnected then .venue_disconnected
      else if has_stale then .venue_stale
      else if has_outlier then .venue_outlier
      else .below_preferred_quorum

/-- core/outlier_filter.py filter_outliers: DISCONNECTED / NO_DATA / STALE
exclusion, candidate median, outlier marking, final median and status. -/
def filter_outliers (inputs : List VenuePriceInput) (current_time_ms : ℤ)
    (market_type : MarketType) : CompositeResult :=
  let quorum := get_quorum_config
  let total_count := inputs.length
  let contribs0 := contribs0Of inputs current_time_ms market_type
  let cands := candidatesOf inputs current_time_ms market_type
  let m := calculate_median (cands.map (fun vp => vp.2))
  let contribs := phase3Contribs m contribs0 cands
  let included_prices := includedPricesOf m cands
  let included_count := included_prices.length
  let final_price := calculate_median included_prices
  let is_gap : Bool := included_count < quorum.min_quorum
  let degraded : Bool := included_count < quorum.preferred_quorum || is_gap
  let degraded_reason :=
    derive_degraded_reason contribs degraded is_gap included_count
  { price := if is_gap then none else final_price,
    venues := contribs,
    included_count := included_count,
    total_count := total_count,
    degraded := degraded,
    degraded_reason := degraded_reason,
    is_gap := is_gap }

/-- Normalized taker side (core/types.py TakerSide). -/
inductive TakerSide where
  | buy
  | sell
deriving DecidableEq, Repr

/-- Canonical trade (core/types.py Trade); prices and quantities are
rationals, timestamps are milliseconds. -/
structure Trade where
  timestamp : ℤ
  local_timestamp : ℤ
  price : ℚ
  quantity : ℚ
  is_buyer_maker : Bool
  venue : VenueId
  asset : AssetId
  market_type : MarketType
deriving DecidableEq, Repr

/-- core/types.py Trade.taker_side: buyer-maker means the taker sold. -/
def Trade.taker_side (t : Trade) : TakerSide :=
  if t.is_buyer_maker then .sell else .buy

/-- Per-venue one-minute bar (core/types.py Bar).  The is_partial flag is
omitted: every bar in the verified paths is a completed bar, and the flag
never feeds back into any computation modelled here. -/
structure Bar where
  time : ℤ
  open_ : ℚ
  high : ℚ
  low : ℚ
  close : ℚ
  volume : ℚ
  trade_count : ℕ
  buy_volume : ℚ
  sell_volume : ℚ
  buy_count : ℕ
  sell_count : ℕ
  venue : VenueId
  asset : AssetId
  market_type : MarketType
deriving DecidableEq, Repr

/-- Composite bar (core/types.py CompositeBar).  Venue ids stand for the
venue value strings of the source; excluded venues are (venue, reason)
pairs. -/
structure CompositeBar where
  time : ℤ
  open_ : Option ℚ
  high : Option ℚ
  low : Option ℚ
  close : Option ℚ
  volume : ℚ
  buy_volume : ℚ
  sell_volume : ℚ
  buy_count : ℕ
  sell_count : ℕ
  degraded : Bool
  is_gap : Bool
  is_backfilled : Bool
  included_venues : List VenueId
  excluded_venues : List (VenueId × ExcludeReason)
  asset : AssetId
  market_type : MarketType
deriving DecidableEq, Repr

/-- core/outlier_filter.py build_composite_bar: assembles a CompositeBar
from the four component results; gap status and the venue lists come from
the close result only, and a gap zeroes OHLC and all flow fields. -/
def build_composite_bar (time : ℤ) (open_result high_result low_result
    close_result : CompositeResult) (total_volume : ℚ) (asset : AssetId)
    (market_type : MarketType) (buy_volume sell_volume : ℚ)
    (buy_count sell_count : ℕ) : CompositeBar :=
  let is_gap := close_result.is_gap
  let excluded_venues := close_result.venues.filterMap
    (fun c => c.exclude_reason.map (fun r => (c.venue, r)))
  let included_venues :=
    (close_result.venues.filter (fun c => c.included)).map (fun c => c.venue)
  let degraded := open_result.degraded || high_result.degraded ||
    low_result.degraded || close_result.degraded
  { time := time,
    open_ := if is_gap then none else open_result.price,
    high := if is_gap then none else high_result.price,
    low := if is_gap then none else low_result.price,
    close := if is_gap then none else close_result.price,
    volume := if is_gap then 0 else total_volume,
    buy_volume := if is_gap then 0 else buy_volume,
    sell_volume := if is_gap then 0 else sell_volume,
    buy_count := if is_gap then 0 else buy_count,
    sell_count := if is_gap then 0 else sell_count,
    degraded := degraded,
    is_gap := is_gap,
    is_backfilled := false,
    included_venues := included_venues,
    excluded_venues := excluded_venues,
    asset := asset,
    market_type := market_type }

/-- core/constants.py BAR_INTERVAL_SECONDS. -/
def BAR_INTERVAL_SECONDS : ℤ := 60

/-- aggregator/composite_aggregator.py _build_composite, build_inputs:
one VenuePriceInput per venue in the bar map, carrying the connector's
connectivity and last-update time, and the chosen component price when the
venue has a bar. -/
def agg_build_inputs (venue_bars : List (VenueId × Option Bar))
    (venue_state : VenueId → Bool × Option ℤ) (getter : Bar → ℚ) :
    List VenuePriceInput :=
  venue_bars.map (fun vb =>
    match vb.2 with
    | none =>
        { venue := vb.1, price := none,
          last_update_ms := (venue_state vb.1).2,
          is_connected := (venue_state vb.1).1 }
    | some b =>
        { venue := vb.1, price := some (getter b),
          last_update_ms := (venue_state vb.1).2,
          is_connected := (venue_state vb.1).1 })

/-- The close-included volume summation of _build_composite (lines
471-489): totals accumulate a venue's bar exactly when the bar exists and
the venue is in the close-result included set. -/
def agg_sum_field (venue_bars : List (VenueId × Option Bar))
    (included_venue_set : List VenueId) (field : Bar → ℚ) : ℚ :=
  venue_bars.foldl (fun acc vb =>
    match vb.2 with
    | some b => if vb.1 ∈ included_venue_set then acc + field b else acc
    | none => acc) 0

/-- Natural-number variant of the summation, for buy_count / sell_count. -/
def agg_sum_count (venue_bars : List (VenueId × Option Bar))
    (included_venue_set : List VenueId) (field : Bar → ℕ) : ℕ :=
  venue_bars.foldl (fun acc vb =>
    match vb.2 with
    | some b => if vb.1 ∈ included_venue_set then acc + field b else acc
    | none => acc) 0

/-- aggregator/composite_aggregator.py CompositeAggregator._build_composite:
runs filter_outliers independently per OHLC component at
current_time_ms = bar_time·1000 + 60·1000, sums flow over the venues the
close result includes, and assembles the bar; returns the composite
together with the close result. -/
def agg_build_composite (asset : AssetId) (market_type : MarketType)
    (bar_time : ℤ) (venue_bars : List (VenueId × Option Bar))
    (venue_state : VenueId → Bool × Option ℤ) :
    CompositeBar × CompositeResult :=
  let current_time_ms := bar_time * 1000 + BAR_INTERVAL_SECONDS * 1000
  let open_result := filter_outliers
    (agg_build_inputs venue_bars venue_state (fun b => b.open_))
    current_time_ms market_type
  let high_result := filter_outliers
    (agg_build_inputs venue_bars venue_state (fun b => b.high))
    current_time_ms market_type
  let low_result := filter_outliers
    (agg_build_inputs venue_bars venue_state (fun b => b.low))
    current_time_ms market_type
  let close_result := filter_outliers
    (agg_build_inputs venue_bars venue_state (fun b => b.close))
    current_time_ms market_type
  let included_venue_set :=
    (close_result.venues.filter (fun c => c.included)).map (fun c => c.venue)
  let total_volume :=
    agg_sum_field venue_bars included_venue_set (fun b => b.volume)
  let total_buy_volume :=
    agg_sum_field venue_bars included_venue_set (fun b => b.buy_volume)
  let total_sell_volume :=
    agg_sum_field venue_bars included_venue_set (fun b => b.sell_volume)
  let total_buy_count :=
    agg_sum_count venue_bars included_venue_set (fun b => b.buy_count)
  let total_sell_count :=
    agg_sum_count venue_bars included_venue_set (fun b => b.sell_count)
  (build_composite_bar bar_time open_result high_result low_result
     close_result total_volume asset market_type total_buy_volume
     total_sell_volume total_buy_count total_sell_count,
   close_result)

/-- core/bar_builder.py floor_to_minute: floor the millisecond timestamp
to the start of its minute, in unix seconds (Python floor division). -/
def floor_to_minute (timestamp_ms : ℤ) : ℤ :=
  ((timestamp_ms.fdiv 1000).fdiv BAR_INTERVAL_SECONDS) * BAR_INTERVAL_SECONDS

/-- core/constants.py MAX_TRADE_BUFFER_SIZE. -/
def MAX_TRADE_BUFFER_SIZE : ℕ := 5000

/-- core/constants.py MAX_BARS_PER_VENUE. -/
def MAX_BARS_PER_VENUE : ℕ := 1000

/-- core/bar_builder.py BarAccumulator: the forming bar for one minute. -/
structure BarAccumulator where
  bar_time : ℤ
  open_ : Option ℚ
  high : Option ℚ
  low : Option ℚ
  close : Option ℚ
  volume : ℚ
  trade_count : ℕ
  buy_volume : ℚ
  sell_volume : ℚ
  buy_count : ℕ
  sell_count : ℕ
  venue : Option VenueId
  asset : Option AssetId
  market_type : Option MarketType
deriving DecidableEq, Repr

/-- A fresh accumulator at the given bar time (the dataclass defaults). -/
def BarAccumulator.empty (t : ℤ) : BarAccumulator :=
  { bar_time := t, open_ := none, high := none, low := none, close := none,
    volume := 0, trade_count := 0, buy_volume := 0, sell_volume := 0,
    buy_count := 0, sell_count := 0, venue := none, asset := none,
    market_type := none }

/-- core/bar_builder.py BarAccumulator.add_trade: the first trade seeds all
OHLC fields; later trades update high/low/close; volume and the taker-side
flow counters always accumulate. -/
def BarAccumulator.add_trade (a : BarAccumulator) (t : Trade) :
    BarAccumulator :=
  let a1 :=
    match a.open_ with
    | none =>
        { a with open_ := some t.price, high := some t.price,
                 low := some t.price, close := some t.price,
                 venue := some t.venue, asset := some t.asset,
                 market_type := some t.market_type }
    | some _ =>
        -- in the source high/low are set whenever open is set, so the
        -- getD fallbacks below are never exercised on reachable states
        let h := a.high.getD t.price
        let l := a.low.getD t.price
        { a with high := some (if t.price > h then t.price else h),
                 low := some (if t.price < l then t.price else l),
                 close := some t.price }
  let a2 := { a1 with volume := a1.volume + t.quantity,
                      trade_count := a1.trade_count + 1 }
  match t.taker_side with
  | .buy => { a2 with buy_volume := a2.buy_volume + t.quantity,
                      buy_count := a2.buy_count + 1 }
  | .sell => { a2 with sell_volume := a2.sell_volume + t.quantity,
                       sell_count := a2.sell_count + 1 }

/-- core/bar_builder.py BarAccumulator.to_bar: none while no trade has been
accumulated, otherwise the completed bar. -/
def BarAccumulator.to_bar (a : BarAccumulator) : Option Bar :=
  match a.open_, a.venue, a.asset, a.market_type with
  | some o, some v, some asst, some mt =>
      some { time := a.bar_time, open_ := o, high := a.high.getD o,
             low := a.low.getD o, close := a.close.getD o,
             volume := a.volume, trade_count := a.trade_count,
             buy_volume := a.buy_volume, sell_volume := a.sell_volume,
             buy_count := a.buy_count, sell_count := a.sell_count,
             venue := v, asset := asst, market_type := mt }
  | _, _, _, _ => none

/-- core/bar_builder.py BarAccumulator.reset: clear OHLC and the counters
for a new bar time (venue/asset/market are not cleared by the source). -/
def BarAccumulator.reset (a : BarAccumulator) (new_bar_time : ℤ) :
    BarAccumulator :=
  { a with bar_time := new_bar_time, open_ := none, high := none,
           low := none, close := none, volume := 0, trade_count := 0,
           buy_volume := 0, sell_volume := 0, buy_count := 0,
           sell_count := 0 }

/-- Mutable state of core/bar_builder.py BarBuilder: forming accumulator,
completed-bar history (deque with maxlen MAX_BARS_PER_VENUE), per-minute
trade counter and last trade time. -/
structure BarBuilderState where
  venue : VenueId
  asset : AssetId
  market_type : MarketType
  accumulator : Option BarAccumulator
  completed_bars : List Bar
  trade_count : ℕ
  last_trade_time : Option ℤ
deriving DecidableEq, Repr

/-- Append to the completed-bar deque, dropping the oldest bars beyond
MAX_BARS_PER_VENUE (deque maxlen semantics). -/
def pushCompleted (h : List Bar) (b : Bar) : List Bar :=
  let h2 := h ++ [b]
  if h2.length > MAX_BARS_PER_VENUE then h2.drop (h2.length - MAX_BARS_PER_VENUE)
  else h2

/-- core/bar_builder.py BarBuilder.add_trade: initialise the accumulator on
first use; when the trade minute is beyond the current bar, complete and
emit the bar and reset; then, unless the per-minute cap is hit, apply the
trade to the current accumulator.  Returns the new state and the completed
bar, if any (the bar handed to on_bar_complete). -/
def BarBuilder.add_trade (s : BarBuilderState) (t : Trade) :
    BarBuilderState × Option Bar :=
  let trade_bar_time := floor_to_minute t.timestamp
  let acc0 := s.accumulator.getD (BarAccumulator.empty trade_bar_time)
  let rolled :=
    if trade_bar_time > acc0.bar_time then
      match acc0.to_bar with
      | some b =>
          (acc0.reset trade_bar_time, 0, pushCompleted s.completed_bars b,
           some b)
      | none => (acc0.reset trade_bar_time, 0, s.completed_bars, none)
    else (acc0, s.trade_count, s.completed_bars, none)
  let acc1 := rolled.1
  let tc1 := rolled.2.1
  let hist1 := rolled.2.2.1
  let completed := rolled.2.2.2
  if tc1 ≥ MAX_TRADE_BUFFER_SIZE then
    ({ s with accumulator := some acc1, trade_count := tc1,
              completed_bars := hist1 }, completed)
  else
    ({ s with accumulator := some (acc1.add_trade t),
              trade_count := tc1 + 1, completed_bars := hist1,
              last_trade_time := some t.timestamp }, completed)

/-- core/constants.py get_enabled_venues. -/
def get_enabled_venues (mt : MarketType) : List VenueId :=
  match mt with
  | .spot => [.binance, .coinbase, .okx, .kraken]
  | .perp => [.binance, .okx, .bybit]

/-- core/constants.py REALTIME_VENUES. -/
def REALTIME_VENUES : List VenueId :=
  [.binance, .coinbase, .kraken, .okx, .bybit]

/-- core/constants.py BACKFILL_VENUES. -/
def BACKFILL_VENUES : List VenueId := [.binance, .kraken, .okx, .bybit]

/-- core/constants.py BACKFILL_EXCLUDED_VENUES = REALTIME minus BACKFILL. -/
def BACKFILL_EXCLUDED_VENUES : List VenueId :=
  REALTIME_VENUES.filter (fun v => v ∉ BACKFILL_VENUES)

/-- backfill/service.py _build_bar_from_trades: run the minute's trades
through a fresh BarAccumulator, keeping only trades whose floored minute is
the gap minute, then stamp venue/asset/market. -/
def build_bar_from_trades (trades : List Trade) (bar_time : ℤ)
    (venue : VenueId) (asset : AssetId) (mt : MarketType) : Option Bar :=
  if trades = [] then none
  else
    let acc := trades.foldl
      (fun a t =>
        if floor_to_minute t.timestamp = bar_time then a.add_trade t else a)
      (BarAccumulator.empty bar_time)
    acc.to_bar.map (fun b =>
      { b with venue := venue, asset := asset, market_type := mt })

/-- backfill/service.py _build_composite_from_venue_bars: plain per-component
medians over all supplied venue bars, summed volume, degraded below the
preferred quorum of 3; absent enabled venues are listed as excluded with
BACKFILL_UNAVAILABLE (realtime-only venues) or NO_DATA. -/
def backfill_build_composite (venue_bars : List (VenueId × Bar))
    (bar_time : ℤ) (asset : AssetId) (mt : MarketType) :
    Option CompositeBar :=
  if venue_bars = [] then none
  else
    let bars := venue_bars.map (fun vb => vb.2)
    let med (g : Bar → ℚ) : ℚ := medianSorted (sortPrices (bars.map g))
    let included_venue_ids := venue_bars.map (fun vb => vb.1)
    let excluded_venues := (get_enabled_venues mt).filterMap (fun v =>
      if v ∈ included_venue_ids then none
      else if v ∈ BACKFILL_EXCLUDED_VENUES then
        some (v, ExcludeReason.backfill_unavailable)
      else some (v, ExcludeReason.no_data))
    some
      { time := bar_time,
        open_ := some (med (fun b => b.open_)),
        high := some (med (fun b => b.high)),
        low := some (med (fun b => b.low)),
        close := some (med (fun b => b.close)),
        volume := (bars.map (fun b => b.volume)).sum,
        buy_volume := (bars.map (fun b => b.buy_volume)).sum,
        sell_volume := (bars.map (fun b => b.sell_volume)).sum,
        buy_count := (bars.map (fun b => b.buy_count)).sum,
        sell_count := (bars.map (fun b => b.sell_count)).sum,
        degraded := bars.length < 3,
        is_gap := false,
        is_backfilled := true,
        included_venues := included_venue_ids,
        excluded_venues := excluded_venues,
        asset := asset,
        market_type := mt }

/-- Aggregated statistics of a backfill run (backfill/service.py
BackfillResult; the identifying fields are dropped here). -/
structure BackfillResult where
  gaps_found : ℕ
  bars_repaired : ℕ
  bars_failed : ℕ
  venue_bars_inserted : ℕ
  errors : List String
deriving DecidableEq, Repr

/-- backfill/service.py _backfill_single_gap, with the per-venue REST
fetches supplied as data: an Except.error outcome is the venue fetcher
raising (the source catches it, logs a warning and continues with the next
venue, recording nothing); an empty trade list is skipped; otherwise the
venue bar is built from the trades.  If fewer than 2 venues produced bars
the minute fails (returns 0); otherwise the composite is built and
persisted and the number of inserted venue bars is returned.  Repository
writes are modelled as succeeding. -/
def backfill_single_gap (gap_time : ℤ)
    (fetches : List (VenueId × Except String (List Trade)))
    (asset : AssetId) (mt : MarketType) : ℕ :=
  let valid := fetches.filterMap (fun vf =>
    match vf.2 with
    | .error _ => none
    | .ok trades =>
        if trades = [] then none
        else (build_bar_from_trades trades gap_time vf.1 asset mt).map
          (fun b => (vf.1, b)))
  if valid.length < 2 then 0 else valid.length

/-- The per-gap body of backfill/service.py backfill_gaps: a repaired gap
(some venue bars inserted) increments bars_repaired and the insert count,
anything else increments bars_failed. -/
def backfill_step (fetch : ℤ → List (VenueId × Except String (List Trade)))
    (asset : AssetId) (mt : MarketType) (r : BackfillResult) (g : ℤ) :
    BackfillResult :=
  let n := backfill_single_gap g (fetch g) asset mt
  if n > 0 then
    { r with bars_repaired := r.bars_repaired + 1,
             venue_bars_inserted := r.venue_bars_inserted + n }
  else { r with bars_failed := r.bars_failed + 1 }

/-- backfill/service.py backfill_gaps over the gap list returned by the
repository, with the venue fetches supplied as data.  Each gap increments
exactly one of bars_repaired / bars_failed; venue-level fetch errors are
swallowed inside _backfill_single_gap and never reach result.errors
(result.errors only receives gap-level repository / parsing exceptions,
which are not modelled here). -/
def backfill_gaps (gaps : List ℤ)
    (fetch : ℤ → List (VenueId × Except String (List Trade)))
    (asset : AssetId) (mt : MarketType) : BackfillResult :=
  gaps.foldl (backfill_step fetch asset mt)
    { gaps_found := gaps.length, bars_repaired := 0, bars_failed := 0,
      venue_bars_inserted := 0, errors := [] }

/-- Whether a fetch outcome is a raised venue fetcher error. -/
def fetchErrored (r : Except String (List Trade)) : Bool :=
  match r with
  | .error _ => true
  | .ok _ => false

/-- The stored composite row fields relevant to the upsert logic
(persistence/repository.py CompositeBarRepository.insert). -/
structure CompositeRow where
  open_ : Option ℚ
  high : Option ℚ
  low : Option ℚ
  close : Option ℚ
  volume : ℚ
  degraded : Bool
  is_gap : Bool
  is_backfilled : Bool
deriving DecidableEq, Repr

/-- The ON CONFLICT DO UPDATE of CompositeBarRepository.insert for one
(time, asset, market_type) key: every column takes the incoming value
except is_backfilled, which follows the frozen CASE expression — stays true
once true, becomes true when a stored gap is repaired to a non-gap, and
otherwise takes the incoming flag. -/
def upsertRow (existing incoming : CompositeRow) : CompositeRow :=
  { incoming with is_backfilled :=
      if existing.is_backfilled = true then true
      else if existing.is_gap = true ∧ incoming.is_gap = false then true
      else incoming.is_backfilled }

/-- CompositeBarRepository.insert on the state of one key: plain insert
when the key is absent, the conflict update otherwise. -/
def repoInsert (st : Option CompositeRow) (bar : CompositeRow) :
    Option CompositeRow :=
  match st with
  | none => some bar
  | some old => some (upsertRow old bar)

/-- Whether the stored row for the key is flagged backfilled. -/
def rowBackfilled (st : Option CompositeRow) : Bool :=
  match st with
  | none => false
  | some r => r.is_backfilled

/-! ### Spec-level characterizations of the filter phases -/

/-- Spec-side survivor predicate (§4.4 steps 1-3): connected, has a price
and an update time, and the update is within the venue/market stale
threshold. -/
def freshSurvivor (now : ℤ) (mt : MarketType) (i : VenuePriceInput) : Bool :=
  i.is_connected && i.price.isSome && i.last_update_ms.isSome &&
    decide (now - i.last_update_ms.getD 0 ≤ get_stale_threshold i.venue mt)

/-- The prices of the phase-1 survivors, in input order. -/
def survivingPrices (inputs : List VenuePriceInput) (now : ℤ)
    (mt : MarketType) : List ℚ :=
  (inputs.filter (freshSurvivor now mt)).map (fun i => i.price.getD 0)

/-- The reference median of §4.4 step 4: the median over the phase-1
survivors only. -/
def refMedian (inputs : List VenuePriceInput) (now : ℤ) (mt : MarketType) :
    Option ℚ :=
  calculate_median (survivingPrices inputs now mt)

/-- §4.4 steps 5-6: the survivors remaining after the outlier exclusion
(all of them when there is no reference median). -/
def postOutlierPrices (inputs : List VenuePriceInput) (now : ℤ)
    (mt : MarketType) : List ℚ :=
  match refMedian inputs now mt with
  | none => survivingPrices inputs now mt
  | some mv => (survivingPrices inputs now mt).filter
      (fun p => !(calculate_deviation_bps p mv > OUTLIER_THRESHOLD_BPS))

/-- The final contribution record of an input after both filter phases,
valid when input venues are pairwise distinct (then the first-match update
of phase 3 targets exactly the input's own record). -/
def finalC (now : ℤ) (mt : MarketType) (m : Option ℚ)
    (i : VenuePriceInput) : VenueContribution :=
  match (phase1Step now mt i).2 with
  | none => (phase1Step now mt i).1
  | some vp => candUpdate m vp.2 (phase1Step now mt i).1

/-- The §4.4 composite for one OHLC component of a set of backfill venue
bars, per the spec's reading of the backfill build: every present venue is
a fresh, connected input carrying that component's price (DISCONNECTED is
modelled by absence; STALE is not applicable because the inputs are
fresh). -/
def spec44Component (venue_bars : List (VenueId × Bar)) (getter : Bar → ℚ)
    (now : ℤ) (mt : MarketType) : CompositeResult :=
  filter_outliers
    (venue_bars.map (fun vb =>
      { venue := vb.1, price := some (getter vb.2),
        last_update_ms := some now, is_connected := true }))
    now mt

/-- One OHLC component result of the aggregator's composite build: the
outlier filter applied to the component inputs at
current_time_ms = bar_time·1000 + 60·1000 (the expression used inside
agg_build_composite). -/
def aggComponentResult (venue_bars : List (VenueId × Option Bar))
    (venue_state : VenueId → Bool × Option ℤ) (bar_time : ℤ)
    (mt : MarketType) (getter : Bar → ℚ) : CompositeResult :=
  filter_outliers (agg_build_inputs venue_bars venue_state getter)
    (bar_time * 1000 + BAR_INTERVAL_SECONDS * 1000) mt

/-! ### Concrete example data -/

/-- A one-minute venue bar with the given OHLC and volume (the flow fields
carry fixed small values); used by the concrete scenarios below. -/
def mkBar (v : VenueId) (o hi lo cl vol : ℚ) : Bar :=
  { time := 0, open_ := o, high := hi, low := lo, close := cl,
    volume := vol, trade_count := 1, buy_volume := vol, sell_volume := 0,
    buy_count := 1, sell_count := 0, venue := v, asset := .btc,
    market_type := .spot }

/-- Venue state used by the aggregator scenarios: every venue connected
with a last update at the composite evaluation instant. -/
def freshVenueState : VenueId → Bool × Option ℤ :=
  fun _ => (true, some 60000)

/-- Aggregator scenario: three venues whose opens are 90 / 100 / 111 but
whose high, low and close all agree at 100. -/
def c4_bars : List (VenueId × Option Bar) :=
  [(.binance, some (mkBar .binance 90 100 100 100 1)),
   (.okx, some (mkBar .okx 100 100 100 100 1)),
   (.kraken, some (mkBar .kraken 111 100 100 100 1))]

/-- Aggregator scenario: one fresh venue with volume 5. -/
def c5_bars : List (VenueId × Option Bar) :=
  [(.binance, some (mkBar .binance 100 100 100 100 5))]

/-- Backfill scenario: three venue bars whose closes are 94000 / 94100 /
95200 (the last deviating by about 117 bps from the close median). -/
def c6_bars : List (VenueId × Bar) :=
  [(.binance, mkBar .binance 94000 94000 94000 94000 1),
   (.okx, mkBar .okx 94100 94100 94100 94100 1),
   (.kraken, mkBar .kraken 95200 95200 95200 95200 1)]

/-- Backfill scenario: three venue bars fully concordant at price 100. -/
def c6w_bars : List (VenueId × Bar) :=
  [(.binance, mkBar .binance 100 100 100 100 1),
   (.okx, mkBar .okx 100 100 100 100 1),
   (.kraken, mkBar .kraken 100 100 100 100 1)]

/-- Bar-builder scenario: a first trade in minute 1. -/
def c1_trade1 : Trade :=
  { timestamp := 60000, local_timestamp := 60000, price := 100,
    quantity := 1, is_buyer_maker := false, venue := .binance,
    asset := .btc, market_type := .spot }

/-- Bar-builder scenario: an out-of-order trade from minute 0 arriving
after the minute-1 trade. -/
def c1_trade2 : Trade :=
  { timestamp := 59000, local_timestamp := 60500, price := 110,
    quantity := 2, is_buyer_maker := false, venue := .binance,
    asset := .btc, market_type := .spot }

/-- A fresh bar builder for Binance BTC spot. -/
def c1_builder0 : BarBuilderState :=
  { venue := .binance, asset := .btc, market_type := .spot,
    accumulator := none, completed_bars := [], trade_count := 0,
    last_trade_time := none }

/-- A backfill trade in minute 0 on Kraken. -/
def c8_tradeK : Trade :=
  { timestamp := 30000, local_timestamp := 30000, price := 100,
    quantity := 1, is_buyer_maker := false, venue := .kraken,
    asset := .btc, market_type := .spot }

/-- A backfill trade in minute 0 on OKX. -/
def c8_tradeO : Trade :=
  { timestamp := 30000, local_timestamp := 30000, price := 100,
    quantity := 1, is_buyer_maker := false, venue := .okx,
    asset := .btc, market_type := .spot }

/-- Backfill fetch outcomes: the Binance fetcher raises, Kraken and OKX
return one trade each. -/
def c8_fetch : ℤ → List (VenueId × Except String (List Trade)) :=
  fun _ => [(.binance, .error "boom"), (.kraken, .ok [c8_tradeK]),
            (.okx, .ok [c8_tradeO])]

/-- Outlier-filter inputs with a duplicated venue id: a stale Binance
quote before a fresh, outlying Binance quote, then two fresh concordant
venues. -/
def c9_l1 : List VenuePriceInput :=
  [{ venue := .binance, price := some 100, last_update_ms := some 985000,
     is_connected := true },
   { venue := .binance, price := some 102, last_update_ms := some 999000,
     is_connected := true },
   { venue := .okx, price := some 100, last_update_ms := some 999000,
     is_connected := true },
   { venue := .kraken, price := some 100, last_update_ms := some 999000,
     is_connected := true }]

/-- The same inputs with the two Binance quotes swapped. -/
def c9_l2 : List VenuePriceInput :=
  [{ venue := .binance, price := some 102, last_update_ms := some 999000,
     is_connected := true },
   { venue := .binance, price := some 100, last_update_ms := some 985000,
     is_connected := true },
   { venue := .okx, price := some 100, last_update_ms := some 999000,
     is_connected := true },
   { venue := .kraken, price := some 100, last_update_ms := some 999000,
     is_connected := true }]

lemma phase1Step_fst_venue (now : ℤ) (mt : MarketType)
    (i : VenuePriceInput) : (phase1Step now mt i).1.venue = i.venue := by
  unfold phase1Step
  rcases i with ⟨v, price, lu, conn⟩
  cases conn <;> cases price <;> cases lu <;> simp <;> split <;> simp

lemma phase1Step_fst_not_outlier (now : ℤ) (mt : MarketType)
    (i : VenuePriceInput) :
    (phase1Step now mt i).1.exclude_reason ≠ some ExcludeReason.outlier := by
  unfold phase1Step
  rcases i with ⟨v, price, lu, conn⟩
  cases conn <;> cases price <;> cases lu <;> simp <;> split <;> simp

lemma phase1Step_snd (now : ℤ) (mt : MarketType) (i : VenuePriceInput) :
    (phase1Step now mt i).2 =
      if freshSurvivor now mt i then some (i.venue, i.price.getD 0)
      else none := by
  unfold phase1Step freshSurvivor
  rcases i with ⟨v, price, lu, conn⟩
  cases conn <;> cases price <;> cases lu <;> simp
  all_goals
    rename_i p l
    split_ifs with h1 h2 <;> first | rfl | omega

/-- The candidate list is exactly the phase-1 survivors paired with their
prices, in input order. -/
lemma candidatesOf_eq (inputs : List VenuePriceInput) (now : ℤ)
    (mt : MarketType) :
    candidatesOf inputs now mt =
      (inputs.filter (freshSurvivor now mt)).map
        (fun i => (i.venue, i.price.getD 0)) := by
  induction inputs with
  | nil => rfl
  | cons i rest ih =>
      simp only [candidatesOf, List.filterMap_cons, List.filter_cons]
      rw [phase1Step_snd]
      by_cases h : freshSurvivor now mt i
      · simp [h, candidatesOf] at ih ⊢
        exact ih
      · simp [h, candidatesOf] at ih ⊢
        exact ih

/-- The candidate prices are the surviving prices. -/
lemma candidate_prices_eq (inputs : List VenuePriceInput) (now : ℤ)
    (mt : MarketType) :
    (candidatesOf inputs now mt).map (fun vp => vp.2) =
      survivingPrices inputs now mt := by
  rw [candidatesOf_eq, survivingPrices, List.map_map]
  rfl

lemma calculate_median_isSome {l : List ℚ} (h : l ≠ []) :
    ∃ q, calculate_median l = some q := by
  simp [calculate_median, h]

/-- The phase-3 included price list is the candidate prices filtered by the
keep test. -/
lemma includedPricesOf_eq (m : Option ℚ) (cands : List (VenueId × ℚ)) :
    includedPricesOf m cands =
      (cands.map (fun vp => vp.2)).filter (keepPrice m) := by
  induction cands with
  | nil => rfl
  | cons vp rest ih =>
      simp only [includedPricesOf, List.filterMap_cons, List.map_cons,
        List.filter_cons] at ih ⊢
      by_cases h : keepPrice m vp.2 <;> simp [h, includedPricesOf] at ih ⊢
      · exact ih
      · exact ih

/-- The included prices of filter_outliers are the §4.4 post-outlier
survivor prices. -/
lemma includedPrices_eq_postOutlier (inputs : List VenuePriceInput)
    (now : ℤ) (mt : MarketType) :
    includedPricesOf (refMedian inputs now mt) (candidatesOf inputs now mt)
      = postOutlierPrices inputs now mt := by
  rw [includedPricesOf_eq, candidate_prices_eq, postOutlierPrices]
  cases h : refMedian inputs now mt with
  | none => simp [keepPrice, List.filter_eq_self]
  | some mv => rfl

/-! ### Median and sorting lemmas -/

lemma sortPrices_perm (l : List ℚ) : List.Perm (sortPrices l) l :=
  List.perm_insertionSort _ l

lemma sortPrices_sorted (l : List ℚ) :
    List.Sorted (fun a b : ℚ => a ≤ b) (sortPrices l) :=
  List.sorted_insertionSort _ l

lemma sortPrices_eq_of_perm {l l2 : List ℚ} (h : List.Perm l l2) :
    sortPrices l = sortPrices l2 :=
  List.eq_of_perm_of_sorted
    ((sortPrices_perm l).trans (h.trans (sortPrices_perm l2).symm))
    (sortPrices_sorted l) (sortPrices_sorted l2)

lemma calculate_median_perm {l l2 : List ℚ} (h : List.Perm l l2) :
    calculate_median l = calculate_median l2 := by
  unfold calculate_median
  by_cases hn : l = []
  · subst hn
    have h2 : l2 = [] := List.Perm.eq_nil h.symm
    rw [h2]
  · have hn2 : l2 ≠ [] := by
      intro h2
      subst h2
      exact hn (List.Perm.eq_nil h)
    simp [hn, hn2, sortPrices_eq_of_perm h]

/-! ### Phase-3 update lemmas -/

lemma candUpdate_venue (m : Option ℚ) (p : ℚ) (c : VenueContribution) :
    (candUpdate m p c).venue = c.venue := by
  cases m with
  | none => rfl
  | some mv =>
      simp only [candUpdate]
      split <;> rfl

lemma candUpdate_outlier_mono (m : Option ℚ) (p : ℚ)
    (c : VenueContribution)
    (h : c.exclude_reason = some ExcludeReason.outlier) :
    (candUpdate m p c).exclude_reason = some ExcludeReason.outlier := by
  cases m with
  | none => exact h
  | some mv =>
      simp only [candUpdate]
      split
      · rfl
      · exact h

lemma candUpdate_reason_of_keep (m : Option ℚ) (p : ℚ)
    (c : VenueContribution) (h : keepPrice m p = true) :
    (candUpdate m p c).exclude_reason = c.exclude_reason := by
  cases m with
  | none => rfl
  | some mv =>
      simp only [keepPrice, Bool.not_eq_eq_eq_not, Bool.not_true,
        decide_eq_false_iff_not] at h
      simp only [candUpdate]
      split
      · rename_i hd
        exact absurd hd h
      · rfl

lemma candUpdate_outlier_of_not_keep (m : Option ℚ) (p : ℚ)
    (c : VenueContribution) (h : keepPrice m p = false) :
    (candUpdate m p c).exclude_reason = some ExcludeReason.outlier := by
  cases m with
  | none => simp [keepPrice] at h
  | some mv =>
      simp only [keepPrice, Bool.not_eq_false', decide_eq_true_eq] at h
      simp only [candUpdate]
      split
      · rfl
      · rename_i hd
        exact absurd h hd

lemma updateFirst_map_venue (v : VenueId)
    (f : VenueContribution → VenueContribution)
    (hf : ∀ c, (f c).venue = c.venue) (cs : List VenueContribution) :
    (updateFirst v f cs).map (fun c => c.venue) =
      cs.map (fun c => c.venue) := by
  induction cs with
  | nil => rfl
  | cons c rest ih =>
      simp only [updateFirst]
      split
      · simp [hf]
      · simp [ih]

lemma updateFirst_skip (v : VenueId)
    (f : VenueContribution → VenueContribution) (c : VenueContribution)
    (cs : List VenueContribution) (h : c.venue ≠ v) :
    updateFirst v f (c :: cs) = c :: updateFirst v f cs := by
  simp [updateFirst, h]

lemma updateFirst_hit (v : VenueId)
    (f : VenueContribution → VenueContribution) (c : VenueContribution)
    (cs : List VenueContribution) (h : c.venue = v) :
    updateFirst v f (c :: cs) = f c :: cs := by
  simp [updateFirst, h]

lemma updateFirst_forall {P : VenueContribution → Prop} (v : VenueId)
    (f : VenueContribution → VenueContribution)
    (hf : ∀ c, P c → P (f c)) (cs : List VenueContribution)
    (h : ∀ c ∈ cs, P c) : ∀ c ∈ updateFirst v f cs, P c := by
  induction cs with
  | nil => simp [updateFirst]
  | cons c rest ih =>
      simp only [updateFirst]
      split
      · intro x hx
        rcases List.mem_cons.mp hx with h1 | h1
        · subst h1
          exact hf c (h c (List.mem_cons_self c rest))
        · exact h x (List.mem_cons_of_mem c h1)
      · intro x hx
        rcases List.mem_cons.mp hx with h1 | h1
        · subst h1
          exact h x (List.mem_cons_self x rest)
        · exact ih (fun y hy => h y (List.mem_cons_of_mem c hy)) x h1

lemma updateFirst_exists {P : VenueContribution → Prop} (v : VenueId)
    (f : VenueContribution → VenueContribution)
    (hf : ∀ c, P c → P (f c)) (cs : List VenueContribution)
    (h : ∃ c ∈ cs, P c) : ∃ c ∈ updateFirst v f cs, P c := by
  induction cs with
  | nil => simpa [updateFirst] using h
  | cons c rest ih =>
      simp only [updateFirst]
      rcases h with ⟨x, hx, hPx⟩
      split
      · rcases List.mem_cons.mp hx with h1 | h1
        · subst h1
          exact ⟨f x, List.mem_cons_self _ _, hf x hPx⟩
        · exact ⟨x, List.mem_cons_of_mem _ h1, hPx⟩
      · rcases List.mem_cons.mp hx with h1 | h1
        · subst h1
          exact ⟨x, List.mem_cons_self _ _, hPx⟩
        · rcases ih ⟨x, h1, hPx⟩ with ⟨y, hy, hPy⟩
          exact ⟨y, List.mem_cons_of_mem _ hy, hPy⟩

lemma updateFirst_exists_intro {P : VenueContribution → Prop} (v : VenueId)
    (f : VenueContribution → VenueContribution)
    (hf : ∀ c, P (f c)) (cs : List VenueContribution)
    (hv : v ∈ cs.map (fun c => c.venue)) :
    ∃ c ∈ updateFirst v f cs, P c := by
  induction cs with
  | nil => simp at hv
  | cons c rest ih =>
      simp only [updateFirst]
      split
      · exact ⟨f c, List.mem_cons_self _ _, hf c⟩
      · rename_i hne
        have hv2 : v ∈ rest.map (fun c => c.venue) := by
          rcases List.mem_map.mp hv with ⟨x, hx, hvx⟩
          rcases List.mem_cons.mp hx with h1 | h1
          · subst h1
            exact absurd hvx hne
          · exact List.mem_map.mpr ⟨x, h1, hvx⟩
        rcases ih hv2 with ⟨y, hy, hPy⟩
        exact ⟨y, List.mem_cons_of_mem _ hy, hPy⟩

lemma applyCand_map_venue (m : Option ℚ) (cs : List VenueContribution)
    (vp : VenueId × ℚ) :
    (applyCand m cs vp).map (fun c => c.venue) =
      cs.map (fun c => c.venue) :=
  updateFirst_map_venue _ _ (fun c => candUpdate_venue m vp.2 c) cs

lemma phase3Contribs_map_venue (m : Option ℚ)
    (cands : List (VenueId × ℚ)) (cs : List VenueContribution) :
    (phase3Contribs m cs cands).map (fun c => c.venue) =
      cs.map (fun c => c.venue) := by
  induction cands generalizing cs with
  | nil => rfl
  | cons vp rest ih =>
      simp only [phase3Contribs, List.foldl_cons]
      rw [show List.foldl (applyCand m) (applyCand m cs vp) rest =
            phase3Contribs m (applyCand m cs vp) rest from rfl,
        ih, applyCand_map_venue]

/-- A contribution carrying the OUTLIER reason survives the rest of the
phase-3 loop. -/
lemma phase3Contribs_outlier_mono (m : Option ℚ)
    (cands : List (VenueId × ℚ)) (cs : List VenueContribution)
    (h : ∃ c ∈ cs, c.exclude_reason = some ExcludeReason.outlier) :
    ∃ c ∈ phase3Contribs m cs cands,
      c.exclude_reason = some ExcludeReason.outlier := by
  induction cands generalizing cs with
  | nil => exact h
  | cons vp rest ih =>
      simp only [phase3Contribs, List.foldl_cons]
      exact ih (applyCand m cs vp)
        (updateFirst_exists _ _ (fun c => candUpdate_outlier_mono m vp.2 c)
          cs h)

/-- Processing only within-threshold candidates never introduces an
OUTLIER record. -/
lemma phase3Contribs_no_outlier (m : Option ℚ)
    (cands : List (VenueId × ℚ)) (cs : List VenueContribution)
    (hk : ∀ vp ∈ cands, keepPrice m vp.2 = true)
    (h : ∀ c ∈ cs, c.exclude_reason ≠ some ExcludeReason.outlier) :
    ∀ c ∈ phase3Contribs m cs cands,
      c.exclude_reason ≠ some ExcludeReason.outlier := by
  induction cands generalizing cs with
  | nil => exact h
  | cons vp rest ih =>
      simp only [phase3Contribs, List.foldl_cons]
      refine ih (applyCand m cs vp)
        (fun x hx => hk x (List.mem_cons_of_mem _ hx)) ?_
      refine updateFirst_forall _ _ ?_ cs h
      intro c hc
      rw [candUpdate_reason_of_keep m vp.2 c
        (hk vp (List.mem_cons_self _ _))]
      exact hc

/-- An OUTLIER record exists after phase 3 exactly when some candidate
fails the keep test, provided every candidate's venue has a contribution
and no record is already marked OUTLIER. -/
lemma phase3Contribs_outlier_iff (m : Option ℚ)
    (cands : List (VenueId × ℚ)) (cs : List VenueContribution)
    (hv : ∀ vp ∈ cands, vp.1 ∈ cs.map (fun c => c.venue))
    (h0 : ∀ c ∈ cs, c.exclude_reason ≠ some ExcludeReason.outlier) :
    (∃ c ∈ phase3Contribs m cs cands,
        c.exclude_reason = some ExcludeReason.outlier) ↔
      ∃ vp ∈ cands, keepPrice m vp.2 = false := by
  induction cands generalizing cs with
  | nil =>
      simp only [phase3Contribs, List.foldl_nil, List.not_mem_nil]
      constructor
      · rintro ⟨c, hc, hr⟩
        exact absurd hr (h0 c hc)
      · rintro ⟨vp, hvp, _⟩
        exact absurd hvp (by simp)
  | cons vp rest ih =>
      simp only [phase3Contribs, List.foldl_cons]
      by_cases hk : keepPrice m vp.2 = true
      · have h0' : ∀ c ∈ applyCand m cs vp,
            c.exclude_reason ≠ some ExcludeReason.outlier := by
          refine updateFirst_forall _ _ ?_ cs h0
          intro c hc
          rw [candUpdate_reason_of_keep m vp.2 c hk]
          exact hc
        have hv' : ∀ wp ∈ rest, wp.1 ∈
            (applyCand m cs vp).map (fun c => c.venue) := by
          intro wp hwp
          rw [applyCand_map_venue]
          exact hv wp (List.mem_cons_of_mem _ hwp)
        rw [show List.foldl (applyCand m) (applyCand m cs vp) rest =
              phase3Contribs m (applyCand m cs vp) rest from rfl,
          ih (applyCand m cs vp) hv' h0']
        constructor
        · rintro ⟨wp, hwp, hkwp⟩
          exact ⟨wp, List.mem_cons_of_mem _ hwp, hkwp⟩
        · rintro ⟨wp, hwp, hkwp⟩
          rcases List.mem_cons.mp hwp with h1 | h1
          · subst h1
            rw [hk] at hkwp
            cases hkwp
          · exact ⟨wp, h1, hkwp⟩
      · have hkf : keepPrice m vp.2 = false := by
          cases hkb : keepPrice m vp.2
          · rfl
          · exact absurd hkb hk
        have hintro : ∃ c ∈ applyCand m cs vp,
            c.exclude_reason = some ExcludeReason.outlier :=
          updateFirst_exists_intro _ _
            (fun c => candUpdate_outlier_of_not_keep m vp.2 c hkf) cs
            (hv vp (List.mem_cons_self _ _))
        constructor
        · intro _
          exact ⟨vp, List.mem_cons_self _ _, hkf⟩
        · intro _
          exact phase3Contribs_outlier_mono m rest _ hintro

lemma contribs0_map_venue (inputs : List VenuePriceInput) (now : ℤ)
    (mt : MarketType) :
    (contribs0Of inputs now mt).map (fun c => c.venue) =
      inputs.map (fun i => i.venue) := by
  unfold contribs0Of
  rw [List.map_map]
  exact List.map_congr_left (fun i _ => phase1Step_fst_venue now mt i)

lemma candidate_venue_mem (inputs : List VenuePriceInput) (now : ℤ)
    (mt : MarketType) :
    ∀ vp ∈ candidatesOf inputs now mt,
      vp.1 ∈ inputs.map (fun i => i.venue) := by
  intro vp hvp
  rw [candidatesOf_eq] at hvp
  rcases List.mem_map.mp hvp with ⟨i, hi, hvi⟩
  exact List.mem_map.mpr ⟨i, List.mem_of_mem_filter hi, by rw [← hvi]⟩

lemma contribs0_no_outlier (inputs : List VenuePriceInput) (now : ℤ)
    (mt : MarketType) :
    ∀ c ∈ contribs0Of inputs now mt,
      c.exclude_reason ≠ some ExcludeReason.outlier := by
  intro c hc
  rcases List.mem_map.mp hc with ⟨i, _, hci⟩
  rw [← hci]
  exact phase1Step_fst_not_outlier now mt i

/-! ### Field characterizations of filter_outliers -/

lemma fo_included_count (inputs : List VenuePriceInput) (now : ℤ)
    (mt : MarketType) :
    (filter_outliers inputs now mt).included_count =
      (postOutlierPrices inputs now mt).length := by
  show (includedPricesOf
      (calculate_median ((candidatesOf inputs now mt).map (fun vp => vp.2)))
      (candidatesOf inputs now mt)).length = _
  rw [candidate_prices_eq]
  rw [show calculate_median (survivingPrices inputs now mt) =
        refMedian inputs now mt from rfl]
  rw [includedPrices_eq_postOutlier]

lemma fo_total_count (inputs : List VenuePriceInput) (now : ℤ)
    (mt : MarketType) :
    (filter_outliers inputs now mt).total_count = inputs.length := rfl

lemma fo_venues (inputs : List VenuePriceInput) (now : ℤ)
    (mt : MarketType) :
    (filter_outliers inputs now mt).venues =
      phase3Contribs (refMedian inputs now mt)
        (contribs0Of inputs now mt) (candidatesOf inputs now mt) := by
  show phase3Contribs
      (calculate_median ((candidatesOf inputs now mt).map (fun vp => vp.2)))
      (contribs0Of inputs now mt) (candidatesOf inputs now mt) = _
  rw [candidate_prices_eq]
  rfl

lemma fo_is_gap (inputs : List VenuePriceInput) (now : ℤ)
    (mt : MarketType) :
    (filter_outliers inputs now mt).is_gap =
      decide ((postOutlierPrices inputs now mt).length < 2) := by
  show decide ((includedPricesOf
      (calculate_median ((candidatesOf inputs now mt).map (fun vp => vp.2)))
      (candidatesOf inputs now mt)).length < get_quorum_config.min_quorum)
      = _
  rw [candidate_prices_eq]
  rw [show calculate_median (survivingPrices inputs now mt) =
        refMedian inputs now mt from rfl]
  rw [includedPrices_eq_postOutlier]
  rfl

lemma fo_degraded (inputs : List VenuePriceInput) (now : ℤ)
    (mt : MarketType) :
    (filter_outliers inputs now mt).degraded =
      (decide ((postOutlierPrices inputs now mt).length < 3) ||
        decide ((postOutlierPrices inputs now mt).length < 2)) := by
  show (decide ((includedPricesOf
      (calculate_median ((candidatesOf inputs now mt).map (fun vp => vp.2)))
      (candidatesOf inputs now mt)).length < get_quorum_config.preferred_quorum)
      || _) = _
  rw [candidate_prices_eq]
  rw [show calculate_median (survivingPrices inputs now mt) =
        refMedian inputs now mt from rfl]
  rw [includedPrices_eq_postOutlier]
  rfl

lemma fo_price (inputs : List VenuePriceInput) (now : ℤ)
    (mt : MarketType) :
    (filter_outliers inputs now mt).price =
      if (postOutlierPrices inputs now mt).length < 2 then none
      else calculate_median (postOutlierPrices inputs now mt) := by
  show (if (decide ((includedPricesOf
      (calculate_median ((candidatesOf inputs now mt).map (fun vp => vp.2)))
      (candidatesOf inputs now mt)).length < get_quorum_config.min_quorum) : Bool)
    then none
    else calculate_median (includedPricesOf
      (calculate_median ((candidatesOf inputs now mt).map (fun vp => vp.2)))
      (candidatesOf inputs now mt))) = _
  rw [candidate_prices_eq]
  rw [show calculate_median (survivingPrices inputs now mt) =
        refMedian inputs now mt from rfl]
  rw [includedPrices_eq_postOutlier]
  by_cases h : (postOutlierPrices inputs now mt).length < 2 <;>
    simp [h, get_quorum_config]

lemma fo_price_none_iff (inputs : List VenuePriceInput) (now : ℤ)
    (mt : MarketType) :
    (filter_outliers inputs now mt).price = none ↔
      (filter_outliers inputs now mt).is_gap = true := by
  rw [fo_price, fo_is_gap]
  by_cases h : (postOutlierPrices inputs now mt).length < 2
  · simp [h]
  · have hne : postOutlierPrices inputs now mt ≠ [] := by
      intro he
      rw [he] at h
      simp at h
    rcases calculate_median_isSome hne with ⟨q, hq⟩
    simp [h, hq]

/-! ### Claim theorems -/

/-- C3: in every filter_outliers call, is_gap holds iff the included count
is below min_quorum (2), the composite price is absent exactly when is_gap
holds, and degraded holds iff the included count is below preferred_quorum
(3) or is_gap holds. -/
theorem claim_C3_quorum_flags (inputs : List VenuePriceInput) (now : ℤ)
    (mt : MarketType) :
    get_quorum_config.min_quorum = 2 ∧
    get_quorum_config.preferred_quorum = 3 ∧
    ((filter_outliers inputs now mt).is_gap = true ↔
      (filter_outliers inputs now mt).included_count < 2) ∧
    ((filter_outliers inputs now mt).price = none ↔
      (filter_outliers inputs now mt).is_gap = true) ∧
    ((filter_outliers inputs now mt).degraded = true ↔
      ((filter_outliers inputs now mt).included_count < 3 ∨
        (filter_outliers inputs now mt).is_gap = true)) := by
  refine ⟨rfl, rfl, ?_, fo_price_none_iff inputs now mt, ?_⟩
  · rw [fo_is_gap, fo_included_count]
    simp
  · rw [fo_degraded, fo_included_count, fo_is_gap]
    by_cases h3 : (postOutlierPrices inputs now mt).length < 3 <;>
      by_cases h2 : (postOutlierPrices inputs now mt).length < 2 <;>
      simp [h3, h2]

/-- C10: calculate_deviation_bps is total with value 0 at median 0 and is
always non-negative; consequently, when the survivor median is 0 no venue
is excluded as OUTLIER and every candidate stays included. -/
theorem claim_C10_deviation_total :
    (∀ p : ℚ, calculate_deviation_bps p 0 = 0) ∧
    (∀ p m : ℚ, 0 ≤ calculate_deviation_bps p m) ∧
    (∀ (inputs : List VenuePriceInput) (now : ℤ) (mt : MarketType),
      refMedian inputs now mt = some 0 →
      (∀ c ∈ (filter_outliers inputs now mt).venues,
        c.exclude_reason ≠ some ExcludeReason.outlier) ∧
      (filter_outliers inputs now mt).included_count =
        (survivingPrices inputs now mt).length) := by
  refine ⟨fun p => by simp [calculate_deviation_bps], ?_, ?_⟩
  · intro p m
    unfold calculate_deviation_bps
    split
    · exact le_refl 0
    · positivity
  · intro inputs now mt hm
    have hdev0 : ∀ p : ℚ, calculate_deviation_bps p 0 = 0 := fun p => by
      simp [calculate_deviation_bps]
    have hkeep : ∀ p : ℚ, keepPrice (some (0 : ℚ)) p = true := by
      intro p
      simp only [keepPrice, hdev0, Bool.not_eq_eq_eq_not, Bool.not_false,
        decide_eq_false_iff_not]
      rw [OUTLIER_THRESHOLD_BPS]
      norm_num
    constructor
    · rw [fo_venues, hm]
      exact phase3Contribs_no_outlier _ _ _
        (fun vp _ => hkeep vp.2)
        (contribs0_no_outlier inputs now mt)
    · rw [fo_included_count]
      unfold postOutlierPrices
      rw [hm]
      exact congrArg List.length
        (List.filter_eq_self.mpr (fun p _ => hkeep p))

/-- C10 witness: with fresh survivors priced -5, 0 and 5 the survivor
median is 0 and the filter keeps all venues with no OUTLIER exclusion. -/
theorem claim_C10_witness :
    refMedian
        [{ venue := VenueId.binance, price := some (-5),
           last_update_ms := some 999000, is_connected := true },
         { venue := VenueId.kraken, price := some 0,
           last_update_ms := some 999000, is_connected := true },
         { venue := VenueId.okx, price := some 5,
           last_update_ms := some 999000, is_connected := true }]
        1000000 MarketType.spot = some 0 ∧
    ((∀ c ∈ (filter_outliers
        [{ venue := VenueId.binance, price := some (-5),
           last_update_ms := some 999000, is_connected := true },
         { venue := VenueId.kraken, price := some 0,
           last_update_ms := some 999000, is_connected := true },
         { venue := VenueId.okx, price := some 5,
           last_update_ms := some 999000, is_connected := true }]
        1000000 MarketType.spot).venues,
        c.exclude_reason ≠ some ExcludeReason.outlier) ∧
      (filter_outliers
        [{ venue := VenueId.binance, price := some (-5),
           last_update_ms := some 999000, is_connected := true },
         { venue := VenueId.kraken, price := some 0,
           last_update_ms := some 999000, is_connected := true },
         { venue := VenueId.okx, price := some 5,
           last_update_ms := some 999000, is_connected := true }]
        1000000 MarketType.spot).included_count =
        (survivingPrices
          [{ venue := VenueId.binance, price := some (-5),
             last_update_ms := some 999000, is_connected := true },
           { venue := VenueId.kraken, price := some 0,
             last_update_ms := some 999000, is_connected := true },
           { venue := VenueId.okx, price := some 5,
             last_update_ms := some 999000, is_connected := true }]
          1000000 MarketType.spot).length) :=
  ⟨by decide, claim_C10_deviation_total.2.2 _ 1000000 MarketType.spot
    (by decide)⟩

/-- C2: DISCONNECTED / NO_DATA / STALE venues are removed before any
median: the candidate set is exactly the fresh survivors, the included
count and composite price are computed from the survivors that pass the
100 bps outlier test against the survivor median, an OUTLIER exclusion
record exists iff some survivor deviates more than 100 bps from that
median, and appending a non-surviving (e.g. stale) venue changes neither
median nor the composite price. -/
theorem claim_C2_stale_before_median (inputs : List VenuePriceInput)
    (now : ℤ) (mt : MarketType) :
    (candidatesOf inputs now mt =
      (inputs.filter (freshSurvivor now mt)).map
        (fun i => (i.venue, i.price.getD 0))) ∧
    ((filter_outliers inputs now mt).included_count =
      (postOutlierPrices inputs now mt).length) ∧
    ((filter_outliers inputs now mt).price =
      if (postOutlierPrices inputs now mt).length < 2 then none
      else calculate_median (postOutlierPrices inputs now mt)) ∧
    ((∃ c ∈ (filter_outliers inputs now mt).venues,
        c.exclude_reason = some ExcludeReason.outlier) ↔
      (∃ mv, refMedian inputs now mt = some mv ∧
        ∃ p ∈ survivingPrices inputs now mt,
          calculate_deviation_bps p mv > OUTLIER_THRESHOLD_BPS)) ∧
    (∀ extra : VenuePriceInput, freshSurvivor now mt extra = false →
      (filter_outliers (inputs ++ [extra]) now mt).price =
        (filter_outliers inputs now mt).price ∧
      refMedian (inputs ++ [extra]) now mt = refMedian inputs now mt ∧
      (filter_outliers (inputs ++ [extra]) now mt).included_count =
        (filter_outliers inputs now mt).included_count) := by
  refine ⟨candidatesOf_eq inputs now mt, fo_included_count inputs now mt,
    fo_price inputs now mt, ?_, ?_⟩
  · rw [fo_venues]
    rw [phase3Contribs_outlier_iff _ _ _
      (by
        rw [contribs0_map_venue]
        exact candidate_venue_mem inputs now mt)
      (contribs0_no_outlier inputs now mt)]
    cases hm : refMedian inputs now mt with
    | none => simp [keepPrice]
    | some mv =>
        constructor
        · rintro ⟨vp, hvp, hk⟩
          refine ⟨mv, rfl, vp.2, ?_, ?_⟩
          · rw [← candidate_prices_eq]
            exact List.mem_map.mpr ⟨vp, hvp, rfl⟩
          · simpa [keepPrice] using hk
        · rintro ⟨mv2, hmv2, p, hp, hd⟩
          rw [Option.some.injEq] at hmv2
          subst hmv2
          rw [← candidate_prices_eq] at hp
          rcases List.mem_map.mp hp with ⟨vp, hvp, hvp2⟩
          refine ⟨vp, hvp, ?_⟩
          rw [hvp2]
          simpa [keepPrice] using hd
  · intro extra hx
    have hce : candidatesOf (inputs ++ [extra]) now mt =
        candidatesOf inputs now mt := by
      unfold candidatesOf
      rw [List.filterMap_append]
      simp [phase1Step_snd, hx]
    have hsp : survivingPrices (inputs ++ [extra]) now mt =
        survivingPrices inputs now mt := by
      unfold survivingPrices
      rw [List.filter_append]
      simp [hx]
    have hrm : refMedian (inputs ++ [extra]) now mt =
        refMedian inputs now mt := by
      unfold refMedian
      rw [hsp]
    have hpo : postOutlierPrices (inputs ++ [extra]) now mt =
        postOutlierPrices inputs now mt := by
      unfold postOutlierPrices
      rw [hrm, hsp]
    refine ⟨?_, hrm, ?_⟩
    · rw [fo_price, fo_price, hpo]
    · rw [fo_included_count, fo_included_count, hpo]

/-- C2 witness: appending a stale Binance quote to a single fresh input
leaves the composite price unchanged. -/
theorem claim_C2_witness :
    freshSurvivor 1000000 MarketType.spot
        { venue := VenueId.binance, price := some 95100,
          last_update_ms := some 985000, is_connected := true } = false ∧
    (filter_outliers
        ([{ venue := VenueId.okx, price := some 94100,
            last_update_ms := some 999000, is_connected := true }] ++
          [{ venue := VenueId.binance, price := some 95100,
             last_update_ms := some 985000, is_connected := true }])
        1000000 MarketType.spot).price =
      (filter_outliers
        [{ venue := VenueId.okx, price := some 94100,
           last_update_ms := some 999000, is_connected := true }]
        1000000 MarketType.spot).price :=
  ⟨by decide,
    ((claim_C2_stale_before_median
      [{ venue := VenueId.okx, price := some 94100,
         last_update_ms := some 999000, is_connected := true }]
      1000000 MarketType.spot).2.2.2.2
      { venue := VenueId.binance, price := some 95100,
        last_update_ms := some 985000, is_connected := true }
      (by decide)).1⟩

/-- C7: the stored is_backfilled flag is monotone under the repository
upsert — it stays true once true over any upsert sequence, and repairing a
stored gap row to a non-gap row forces it to true. -/
theorem claim_C7_backfilled_monotonic :
    (∀ old incoming : CompositeRow, old.is_backfilled = true →
      (upsertRow old incoming).is_backfilled = true) ∧
    (∀ old incoming : CompositeRow, old.is_gap = true →
      incoming.is_gap = false →
      (upsertRow old incoming).is_backfilled = true) ∧
    (∀ (st : Option CompositeRow) (bars : List CompositeRow),
      rowBackfilled st = true →
      rowBackfilled (bars.foldl repoInsert st) = true) := by
  have hstep : ∀ old incoming : CompositeRow, old.is_backfilled = true →
      (upsertRow old incoming).is_backfilled = true := by
    intro old incoming h
    simp [upsertRow, h]
  refine ⟨hstep, ?_, ?_⟩
  · intro old incoming h1 h2
    by_cases hb : old.is_backfilled = true <;> simp [upsertRow, hb, h1, h2]
  · intro st bars
    induction bars generalizing st with
    | nil => exact fun h => h
    | cons b rest ih =>
        intro h
        rw [List.foldl_cons]
        refine ih (repoInsert st b) ?_
        cases st with
        | none => simp [rowBackfilled] at h
        | some old =>
            simp only [rowBackfilled] at h
            simpa [repoInsert, rowBackfilled] using hstep old b h

/-- C7 witness: upserting a non-backfilled row over a backfilled row
leaves the key backfilled. -/
theorem claim_C7_witness :
    rowBackfilled (some
      { open_ := none, high := none, low := none, close := none,
        volume := 0, degraded := false, is_gap := true,
        is_backfilled := true }) = true ∧
    rowBackfilled
      ([({ open_ := some 1, high := some 1, low := some 1, close := some 1,
           volume := 0, degraded := false, is_gap := false,
           is_backfilled := false } : CompositeRow)].foldl repoInsert
        (some
          { open_ := none, high := none, low := none, close := none,
            volume := 0, degraded := false, is_gap := true,
            is_backfilled := true })) = true :=
  ⟨by decide,
    claim_C7_backfilled_monotonic.2.2
      (some
        { open_ := none, high := none, low := none, close := none,
          volume := 0, degraded := false, is_gap := true,
          is_backfilled := true })
      [{ open_ := some 1, high := some 1, low := some 1, close := some 1,
         volume := 0, degraded := false, is_gap := false,
         is_backfilled := false }]
      (by decide)⟩

/-- C1 (divergence witness): after a trade in minute 1, an out-of-order
trade from minute 0 is not dropped by BarBuilder.add_trade: it is applied
to the current accumulator, whose close becomes the past trade's price and
whose trade count rises to 2, while no bar is completed and the history
stays empty. -/
theorem claim_C1_past_trade_applied :
    floor_to_minute c1_trade2.timestamp <
      (((BarBuilder.add_trade c1_builder0 c1_trade1).1.accumulator.map
        (fun a => a.bar_time)).getD 0) ∧
    (BarBuilder.add_trade (BarBuilder.add_trade c1_builder0 c1_trade1).1
      c1_trade2).2 = none ∧
    (BarBuilder.add_trade (BarBuilder.add_trade c1_builder0 c1_trade1).1
      c1_trade2).1.completed_bars = [] ∧
    ((BarBuilder.add_trade (BarBuilder.add_trade c1_builder0 c1_trade1).1
        c1_trade2).1.accumulator.map
      (fun a => (a.trade_count, a.close))) = some (2, some 110) := by
  refine ⟨by decide, by decide, by decide, by decide⟩

/-! ### Permutation invariance machinery -/

lemma phase3Contribs_skip (m : Option ℚ) (cands : List (VenueId × ℚ))
    (c : VenueContribution) (cs : List VenueContribution)
    (h : ∀ vp ∈ cands, vp.1 ≠ c.venue) :
    phase3Contribs m (c :: cs) cands = c :: phase3Contribs m cs cands := by
  induction cands generalizing cs with
  | nil => rfl
  | cons vp rest ih =>
      simp only [phase3Contribs, List.foldl_cons]
      have hne : ¬ (c.venue = vp.1) := fun he =>
        (h vp (List.mem_cons_self _ _)) he.symm
      rw [show applyCand m (c :: cs) vp = c :: applyCand m cs vp from by
        simp [applyCand, updateFirst, hne]]
      exact ih (applyCand m cs vp)
        (fun wp hwp => h wp (List.mem_cons_of_mem _ hwp))

/-- With pairwise-distinct input venues the phase-3 loop rewrites each
input's own contribution independently: the final contribution list is a
map over the inputs. -/
lemma phase3_eq_map_finalC (inputs : List VenuePriceInput) (now : ℤ)
    (mt : MarketType) (m : Option ℚ)
    (hnd : (inputs.map (fun i => i.venue)).Nodup) :
    phase3Contribs m (contribs0Of inputs now mt)
      (candidatesOf inputs now mt) = inputs.map (finalC now mt m) := by
  induction inputs with
  | nil => rfl
  | cons i rest ih =>
      rw [List.map_cons] at hnd
      have hni : i.venue ∉ rest.map (fun i => i.venue) :=
        (List.nodup_cons.mp hnd).1
      have hndr := (List.nodup_cons.mp hnd).2
      have hrestven : ∀ vp ∈ candidatesOf rest now mt,
          vp.1 ≠ (phase1Step now mt i).1.venue := by
        intro vp hvp heq
        rw [phase1Step_fst_venue] at heq
        exact hni (heq ▸ candidate_venue_mem rest now mt vp hvp)
      show phase3Contribs m
          ((phase1Step now mt i).1 :: contribs0Of rest now mt)
          (candidatesOf (i :: rest) now mt) =
        finalC now mt m i :: rest.map (finalC now mt m)
      cases h2 : (phase1Step now mt i).2 with
      | none =>
          have hc : candidatesOf (i :: rest) now mt =
              candidatesOf rest now mt := by
            simp [candidatesOf, List.filterMap_cons, h2]
          rw [hc, phase3Contribs_skip m _ _ _ hrestven, ih hndr]
          unfold finalC
          rw [h2]
      | some vp =>
          have hc : candidatesOf (i :: rest) now mt =
              vp :: candidatesOf rest now mt := by
            simp [candidatesOf, List.filterMap_cons, h2]
          have hv1 : vp.1 = i.venue := by
            rw [phase1Step_snd] at h2
            split at h2
            · cases h2
              rfl
            · cases h2
          rw [hc]
          rw [show phase3Contribs m
              ((phase1Step now mt i).1 :: contribs0Of rest now mt)
              (vp :: candidatesOf rest now mt) =
            phase3Contribs m
              (applyCand m
                ((phase1Step now mt i).1 :: contribs0Of rest now mt) vp)
              (candidatesOf rest now mt) from rfl]
          rw [show applyCand m
              ((phase1Step now mt i).1 :: contribs0Of rest now mt) vp =
            candUpdate m vp.2 (phase1Step now mt i).1 ::
              contribs0Of rest now mt from by
            simp [applyCand, updateFirst, phase1Step_fst_venue, hv1]]
          rw [phase3Contribs_skip m _ _ _ (by
            intro wp hwp heq
            rw [candUpdate_venue] at heq
            exact hrestven wp hwp heq)]
          rw [ih hndr]
          unfold finalC
          rw [h2]

lemma any_eq_of_perm {α : Type} (f : α → Bool) {l l2 : List α}
    (h : List.Perm l l2) : l.any f = l2.any f := by
  cases hb : l2.any f with
  | false =>
      rw [List.any_eq_false] at hb ⊢
      intro x hx
      exact hb x (h.mem_iff.mp hx)
  | true =>
      rw [List.any_eq_true] at hb ⊢
      rcases hb with ⟨x, hx, hfx⟩
      exact ⟨x, h.mem_iff.mpr hx, hfx⟩

lemma derive_degraded_reason_perm {cs cs2 : List VenueContribution}
    (h : List.Perm cs cs2) (d g : Bool) (ic : ℕ) :
    derive_degraded_reason cs d g ic =
      derive_degraded_reason cs2 d g ic := by
  unfold derive_degraded_reason
  rw [any_eq_of_perm _ h, any_eq_of_perm _ h, any_eq_of_perm _ h,
    any_eq_of_perm _ h]

lemma fo_degraded_reason (inputs : List VenuePriceInput) (now : ℤ)
    (mt : MarketType) :
    (filter_outliers inputs now mt).degraded_reason =
      derive_degraded_reason (filter_outliers inputs now mt).venues
        (filter_outliers inputs now mt).degraded
        (filter_outliers inputs now mt).is_gap
        (filter_outliers inputs now mt).included_count := rfl

/-- C9 (amended): for inputs whose venues are pairwise distinct,
filter_outliers is invariant under permutation of the input list — the
composite price, included and total counts, degraded flag and reason, and
gap flag agree, and the per-venue contribution lists are equal up to
reordering. -/
theorem claim_C9_perm_invariance (inputs inputs2 : List VenuePriceInput)
    (now : ℤ) (mt : MarketType) (hperm : List.Perm inputs inputs2)
    (hnd : (inputs.map (fun i => i.venue)).Nodup) :
    (filter_outliers inputs now mt).price =
      (filter_outliers inputs2 now mt).price ∧
    (filter_outliers inputs now mt).included_count =
      (filter_outliers inputs2 now mt).included_count ∧
    (filter_outliers inputs now mt).total_count =
      (filter_outliers inputs2 now mt).total_count ∧
    (filter_outliers inputs now mt).degraded =
      (filter_outliers inputs2 now mt).degraded ∧
    (filter_outliers inputs now mt).degraded_reason =
      (filter_outliers inputs2 now mt).degraded_reason ∧
    (filter_outliers inputs now mt).is_gap =
      (filter_outliers inputs2 now mt).is_gap ∧
    List.Perm (filter_outliers inputs now mt).venues
      (filter_outliers inputs2 now mt).venues := by
  have hnd2 : (inputs2.map (fun i => i.venue)).Nodup :=
    ((hperm.map (fun i => i.venue)).nodup_iff).mp hnd
  have hsp : List.Perm (survivingPrices inputs now mt)
      (survivingPrices inputs2 now mt) := by
    unfold survivingPrices
    exact (hperm.filter (freshSurvivor now mt)).map
      (fun i => i.price.getD 0)
  have hm : refMedian inputs now mt = refMedian inputs2 now mt :=
    calculate_median_perm hsp
  have hpo : List.Perm (postOutlierPrices inputs now mt)
      (postOutlierPrices inputs2 now mt) := by
    unfold postOutlierPrices
    rw [← hm]
    cases refMedian inputs now mt with
    | none => exact hsp
    | some mv => exact hsp.filter _
  have hlen := hpo.length_eq
  have hvperm : List.Perm (filter_outliers inputs now mt).venues
      (filter_outliers inputs2 now mt).venues := by
    rw [fo_venues, fo_venues, phase3_eq_map_finalC inputs now mt _ hnd,
      phase3_eq_map_finalC inputs2 now mt _ hnd2, ← hm]
    exact hperm.map (finalC now mt (refMedian inputs now mt))
  refine ⟨?_, ?_, ?_, ?_, ?_, ?_, hvperm⟩
  · rw [fo_price, fo_price, hlen]
    by_cases h2 : (postOutlierPrices inputs2 now mt).length < 2
    · simp [h2]
    · simp only [h2, if_false]
      exact calculate_median_perm hpo
  · rw [fo_included_count, fo_included_count, hlen]
  · rw [fo_total_count, fo_total_count, hperm.length_eq]
  · rw [fo_degraded, fo_degraded, hlen]
  · rw [fo_degraded_reason, fo_degraded_reason]
    rw [derive_degraded_reason_perm hvperm]
    rw [fo_degraded, fo_degraded, fo_is_gap, fo_is_gap,
      fo_included_count, fo_included_count, hlen]
  · rw [fo_is_gap, fo_is_gap, hlen]

/-- C9 witness: swapping two fresh distinct-venue inputs leaves every
output of filter_outliers unchanged (contributions up to reordering). -/
theorem claim_C9_witness :
    List.Perm
      ([{ venue := VenueId.okx, price := some 94100,
          last_update_ms := some 999000, is_connected := true },
        { venue := VenueId.binance, price := some 94100,
          last_update_ms := some 999000, is_connected := true }] :
        List VenuePriceInput)
      [{ venue := VenueId.binance, price := some 94100,
         last_update_ms := some 999000, is_connected := true },
       { venue := VenueId.okx, price := some 94100,
         last_update_ms := some 999000, is_connected := true }] ∧
    (filter_outliers
      [{ venue := VenueId.okx, price := some 94100,
         last_update_ms := some 999000, is_connected := true },
       { venue := VenueId.binance, price := some 94100,
         last_update_ms := some 999000, is_connected := true }]
      1000000 MarketType.spot).price =
    (filter_outliers
      [{ venue := VenueId.binance, price := some 94100,
         last_update_ms := some 999000, is_connected := true },
       { venue := VenueId.okx, price := some 94100,
         last_update_ms := some 999000, is_connected := true }]
      1000000 MarketType.spot).price :=
  ⟨by decide,
    (claim_C9_perm_invariance
      [{ venue := VenueId.okx, price := some 94100,
         last_update_ms := some 999000, is_connected := true },
       { venue := VenueId.binance, price := some 94100,
         last_update_ms := some 999000, is_connected := true }]
      [{ venue := VenueId.binance, price := some 94100,
         last_update_ms := some 999000, is_connected := true },
       { venue := VenueId.okx, price := some 94100,
         last_update_ms := some 999000, is_connected := true }]
      1000000 MarketType.spot (by decide) (by decide)).1⟩

/-- C9 counterexample: with a duplicated venue id (a stale Binance quote
and a fresh outlying Binance quote) the first-match record update of
phase 3 lands on a different record depending on input order, so swapping
the two Binance inputs changes degraded_reason from VENUE_OUTLIER to
VENUE_STALE — the claim fails for general input lists. -/
theorem claim_C9_counterexample :
    List.Perm c9_l1 c9_l2 ∧
    (filter_outliers c9_l1 1000000 MarketType.spot).degraded_reason =
      DegradedReason.venue_outlier ∧
    (filter_outliers c9_l2 1000000 MarketType.spot).degraded_reason =
      DegradedReason.venue_stale := by
  have hd102 : calculate_deviation_bps 102 100 = 200 := by
    norm_num [calculate_deviation_bps, abs_div]
  have hd100 : calculate_deviation_bps 100 100 = 0 := by
    norm_num [calculate_deviation_bps]
  have hcu102 : ∀ c, candUpdate (some 100) 102 c =
      { c with deviation_bps := some 200,
               exclude_reason := some ExcludeReason.outlier,
               included := false } := by
    intro c
    simp [candUpdate, hd102, OUTLIER_THRESHOLD_BPS]
    norm_num
  have hcu100 : ∀ c, candUpdate (some 100) 100 c =
      { c with deviation_bps := some 0, included := true } := by
    intro c
    simp [candUpdate, hd100, OUTLIER_THRESHOLD_BPS]
  have hm1 : refMedian c9_l1 1000000 MarketType.spot = some 100 := by
    decide
  have hm2 : refMedian c9_l2 1000000 MarketType.spot = some 100 := by
    decide
  have hpo1 : postOutlierPrices c9_l1 1000000 MarketType.spot =
      [100, 100] := by
    unfold postOutlierPrices
    rw [hm1]
    rw [show survivingPrices c9_l1 1000000 MarketType.spot =
      [102, 100, 100] from by decide]
    simp [List.filter, hd102, hd100, OUTLIER_THRESHOLD_BPS]
    norm_num
  have hpo2 : postOutlierPrices c9_l2 1000000 MarketType.spot =
      [100, 100] := by
    unfold postOutlierPrices
    rw [hm2]
    rw [show survivingPrices c9_l2 1000000 MarketType.spot =
      [102, 100, 100] from by decide]
    simp [List.filter, hd102, hd100, OUTLIER_THRESHOLD_BPS]
    norm_num
  have hv1 : (filter_outliers c9_l1 1000000 MarketType.spot).venues =
      [⟨.binance, some 100, false, some .outlier, some 200⟩,
       ⟨.binance, some 102, false, none, none⟩,
       ⟨.okx, some 100, true, none, some 0⟩,
       ⟨.kraken, some 100, true, none, some 0⟩] := by
    rw [fo_venues, hm1]
    rw [show candidatesOf c9_l1 1000000 MarketType.spot =
      [(.binance, 102), (.okx, 100), (.kraken, 100)] from by decide]
    rw [show contribs0Of c9_l1 1000000 MarketType.spot =
      [⟨.binance, some 100, false, some .stale, none⟩,
       ⟨.binance, some 102, false, none, none⟩,
       ⟨.okx, some 100, false, none, none⟩,
       ⟨.kraken, some 100, false, none, none⟩] from by decide]
    simp only [phase3Contribs, List.foldl_cons, List.foldl_nil, applyCand,
      updateFirst, hcu102, hcu100]
    decide
  have hv2 : (filter_outliers c9_l2 1000000 MarketType.spot).venues =
      [⟨.binance, some 102, false, some .outlier, some 200⟩,
       ⟨.binance, some 100, false, some .stale, none⟩,
       ⟨.okx, some 100, true, none, some 0⟩,
       ⟨.kraken, some 100, true, none, some 0⟩] := by
    rw [fo_venues, hm2]
    rw [show candidatesOf c9_l2 1000000 MarketType.spot =
      [(.binance, 102), (.okx, 100), (.kraken, 100)] from by decide]
    rw [show contribs0Of c9_l2 1000000 MarketType.spot =
      [⟨.binance, some 102, false, none, none⟩,
       ⟨.binance, some 100, false, some .stale, none⟩,
       ⟨.okx, some 100, false, none, none⟩,
       ⟨.kraken, some 100, false, none, none⟩] from by decide]
    simp only [phase3Contribs, List.foldl_cons, List.foldl_nil, applyCand,
      updateFirst, hcu102, hcu100]
    decide
  refine ⟨by decide, ?_, ?_⟩
  · rw [fo_degraded_reason, hv1, fo_degraded, fo_is_gap,
      fo_included_count, hpo1]
    decide
  · rw [fo_degraded_reason, hv2, fo_degraded, fo_is_gap,
      fo_included_count, hpo2]
    decide

/-! ### Aggregator composite-bar facts -/

lemma agg_is_gap (asset : AssetId) (mt : MarketType) (bar_time : ℤ)
    (venue_bars : List (VenueId × Option Bar))
    (venue_state : VenueId → Bool × Option ℤ) :
    (agg_build_composite asset mt bar_time venue_bars venue_state).1.is_gap
      = (aggComponentResult venue_bars venue_state bar_time mt
          (fun b => b.close)).is_gap := rfl

lemma agg_open (asset : AssetId) (mt : MarketType) (bar_time : ℤ)
    (venue_bars : List (VenueId × Option Bar))
    (venue_state : VenueId → Bool × Option ℤ) :
    (agg_build_composite asset mt bar_time venue_bars venue_state).1.open_
      = (if (aggComponentResult venue_bars venue_state bar_time mt
              (fun b => b.close)).is_gap
         then none
         else (aggComponentResult venue_bars venue_state bar_time mt
            (fun b => b.open_)).price) := rfl

lemma agg_high (asset : AssetId) (mt : MarketType) (bar_time : ℤ)
    (venue_bars : List (VenueId × Option Bar))
    (venue_state : VenueId → Bool × Option ℤ) :
    (agg_build_composite asset mt bar_time venue_bars venue_state).1.high
      = (if (aggComponentResult venue_bars venue_state bar_time mt
              (fun b => b.close)).is_gap
         then none
         else (aggComponentResult venue_bars venue_state bar_time mt
            (fun b => b.high)).price) := rfl

lemma agg_low (asset : AssetId) (mt : MarketType) (bar_time : ℤ)
    (venue_bars : List (VenueId × Option Bar))
    (venue_state : VenueId → Bool × Option ℤ) :
    (agg_build_composite asset mt bar_time venue_bars venue_state).1.low
      = (if (aggComponentResult venue_bars venue_state bar_time mt
              (fun b => b.close)).is_gap
         then none
         else (aggComponentResult venue_bars venue_state bar_time mt
            (fun b => b.low)).price) := rfl

lemma agg_close (asset : AssetId) (mt : MarketType) (bar_time : ℤ)
    (venue_bars : List (VenueId × Option Bar))
    (venue_state : VenueId → Bool × Option ℤ) :
    (agg_build_composite asset mt bar_time venue_bars venue_state).1.close
      = (if (aggComponentResult venue_bars venue_state bar_time mt
              (fun b => b.close)).is_gap
         then none
         else (aggComponentResult venue_bars venue_state bar_time mt
            (fun b => b.close)).price) := rfl

lemma agg_close_result (asset : AssetId) (mt : MarketType) (bar_time : ℤ)
    (venue_bars : List (VenueId × Option Bar))
    (venue_state : VenueId → Bool × Option ℤ) :
    (agg_build_composite asset mt bar_time venue_bars venue_state).2
      = aggComponentResult venue_bars venue_state bar_time mt
          (fun b => b.close) := rfl

/-- A filter result's price is present exactly when it is not a gap. -/
lemma result_price_isSome_iff (inputs : List VenuePriceInput) (now : ℤ)
    (mt : MarketType) :
    (∃ q, (filter_outliers inputs now mt).price = some q) ↔
      (filter_outliers inputs now mt).is_gap = false := by
  constructor
  · intro ⟨q, hq⟩
    cases hg : (filter_outliers inputs now mt).is_gap
    · rfl
    · rw [(fo_price_none_iff inputs now mt).mpr hg] at hq
      cases hq
  · intro hg
    cases hp : (filter_outliers inputs now mt).price with
    | none =>
        rw [(fo_price_none_iff inputs now mt).mp hp] at hg
        cases hg
    | some q => exact ⟨q, rfl⟩

/-- C4 (amended): every composite from the realtime build satisfies:
when is_gap (the close component below quorum), OHLC are all absent and
the volume and flow fields are zero; when not is_gap, close is present,
and each of open / high / low equals its component result's price and is
present exactly when that component is itself not a gap (an open / high /
low component can be a gap even when is_gap is false). -/
theorem claim_C4_gap_dichotomy (asset : AssetId) (mt : MarketType)
    (bar_time : ℤ) (venue_bars : List (VenueId × Option Bar))
    (venue_state : VenueId → Bool × Option ℤ) :
    ((agg_build_composite asset mt bar_time venue_bars
        venue_state).1.is_gap = true →
      (agg_build_composite asset mt bar_time venue_bars
        venue_state).1.open_ = none ∧
      (agg_build_composite asset mt bar_time venue_bars
        venue_state).1.high = none ∧
      (agg_build_composite asset mt bar_time venue_bars
        venue_state).1.low = none ∧
      (agg_build_composite asset mt bar_time venue_bars
        venue_state).1.close = none ∧
      (agg_build_composite asset mt bar_time venue_bars
        venue_state).1.volume = 0 ∧
      (agg_build_composite asset mt bar_time venue_bars
        venue_state).1.buy_volume = 0 ∧
      (agg_build_composite asset mt bar_time venue_bars
        venue_state).1.sell_volume = 0 ∧
      (agg_build_composite asset mt bar_time venue_bars
        venue_state).1.buy_count = 0 ∧
      (agg_build_composite asset mt bar_time venue_bars
        venue_state).1.sell_count = 0) ∧
    ((agg_build_composite asset mt bar_time venue_bars
        venue_state).1.is_gap = false →
      (∃ q, (agg_build_composite asset mt bar_time venue_bars
        venue_state).1.close = some q) ∧
      (agg_build_composite asset mt bar_time venue_bars
          venue_state).1.open_ =
        (aggComponentResult venue_bars venue_state bar_time mt
          (fun b => b.open_)).price ∧
      ((∃ q, (agg_build_composite asset mt bar_time venue_bars
          venue_state).1.open_ = some q) ↔
        (aggComponentResult venue_bars venue_state bar_time mt
          (fun b => b.open_)).is_gap = false) ∧
      (agg_build_composite asset mt bar_time venue_bars
          venue_state).1.high =
        (aggComponentResult venue_bars venue_state bar_time mt
          (fun b => b.high)).price ∧
      ((∃ q, (agg_build_composite asset mt bar_time venue_bars
          venue_state).1.high = some q) ↔
        (aggComponentResult venue_bars venue_state bar_time mt
          (fun b => b.high)).is_gap = false) ∧
      (agg_build_composite asset mt bar_time venue_bars
          venue_state).1.low =
        (aggComponentResult venue_bars venue_state bar_time mt
          (fun b => b.low)).price ∧
      ((∃ q, (agg_build_composite asset mt bar_time venue_bars
          venue_state).1.low = some q) ↔
        (aggComponentResult venue_bars venue_state bar_time mt
          (fun b => b.low)).is_gap = false)) := by
  constructor
  · intro hg
    rw [agg_is_gap] at hg
    refine ⟨?_, ?_, ?_, ?_, ?_, ?_, ?_, ?_, ?_⟩ <;>
      first
        | (rw [agg_open, hg]; rfl)
        | (rw [agg_high, hg]; rfl)
        | (rw [agg_low, hg]; rfl)
        | (rw [agg_close, hg]; rfl)
        | (show (if (aggComponentResult venue_bars venue_state bar_time mt
              (fun b => b.close)).is_gap = true then _ else _) = _
           rw [hg]
           rfl)
  · intro hg
    rw [agg_is_gap] at hg
    have hclose : (∃ q, (agg_build_composite asset mt bar_time venue_bars
        venue_state).1.close = some q) := by
      rw [agg_close, hg]
      simp only [Bool.false_eq_true, if_false]
      exact ((result_price_isSome_iff _ _ _).mpr hg)
    refine ⟨hclose, ?_, ?_, ?_, ?_, ?_, ?_⟩
    · rw [agg_open, hg]
      simp
    · rw [agg_open, hg]
      simp only [Bool.false_eq_true, if_false]
      exact result_price_isSome_iff _ _ _
    · rw [agg_high, hg]
      simp
    · rw [agg_high, hg]
      simp only [Bool.false_eq_true, if_false]
      exact result_price_isSome_iff _ _ _
    · rw [agg_low, hg]
      simp
    · rw [agg_low, hg]
      simp only [Bool.false_eq_true, if_false]
      exact result_price_isSome_iff _ _ _

/-- C4 witness: with no venue bars the close component is below quorum,
so the composite is a gap with absent OHLC and zero flow fields. -/
theorem claim_C4_witness :
    (agg_build_composite AssetId.btc MarketType.spot 0 []
        freshVenueState).1.is_gap = true ∧
    ((agg_build_composite AssetId.btc MarketType.spot 0 []
        freshVenueState).1.open_ = none ∧
     (agg_build_composite AssetId.btc MarketType.spot 0 []
        freshVenueState).1.high = none ∧
     (agg_build_composite AssetId.btc MarketType.spot 0 []
        freshVenueState).1.low = none ∧
     (agg_build_composite AssetId.btc MarketType.spot 0 []
        freshVenueState).1.close = none ∧
     (agg_build_composite AssetId.btc MarketType.spot 0 []
        freshVenueState).1.volume = 0 ∧
     (agg_build_composite AssetId.btc MarketType.spot 0 []
        freshVenueState).1.buy_volume = 0 ∧
     (agg_build_composite AssetId.btc MarketType.spot 0 []
        freshVenueState).1.sell_volume = 0 ∧
     (agg_build_composite AssetId.btc MarketType.spot 0 []
        freshVenueState).1.buy_count = 0 ∧
     (agg_build_composite AssetId.btc MarketType.spot 0 []
        freshVenueState).1.sell_count = 0) :=
  ⟨by decide,
    (claim_C4_gap_dichotomy AssetId.btc MarketType.spot 0 []
      freshVenueState).1 (by decide)⟩

/-- C4 counterexample: three venues whose closes agree at 100 but whose
opens are 90 / 100 / 111: the close component keeps all three venues so
is_gap is false, yet the open component excludes 90 and 111 as outliers,
drops below quorum, and the emitted composite has open_ = none — the claim
that is_gap = false implies all of OHLC present is false. -/
theorem claim_C4_counterexample :
    (agg_build_composite AssetId.btc MarketType.spot 0 c4_bars
        freshVenueState).1.is_gap = false ∧
    (agg_build_composite AssetId.btc MarketType.spot 0 c4_bars
        freshVenueState).1.open_ = none := by
  have hd100 : calculate_deviation_bps 100 100 = 0 := by
    norm_num [calculate_deviation_bps]
  have hd90 : calculate_deviation_bps 90 100 = 1000 := by
    norm_num [calculate_deviation_bps, abs_div]
  have hd111 : calculate_deviation_bps 111 100 = 1100 := by
    norm_num [calculate_deviation_bps, abs_div]
  have hgapc : (aggComponentResult c4_bars freshVenueState 0
      MarketType.spot (fun b => b.close)).is_gap = false := by
    unfold aggComponentResult
    rw [fo_is_gap]
    have hpo : postOutlierPrices
        (agg_build_inputs c4_bars freshVenueState (fun b => b.close))
        (0 * 1000 + BAR_INTERVAL_SECONDS * 1000) MarketType.spot =
        [100, 100, 100] := by
      unfold postOutlierPrices
      rw [show refMedian
        (agg_build_inputs c4_bars freshVenueState (fun b => b.close))
        (0 * 1000 + BAR_INTERVAL_SECONDS * 1000) MarketType.spot =
        some 100 from by decide]
      rw [show survivingPrices
        (agg_build_inputs c4_bars freshVenueState (fun b => b.close))
        (0 * 1000 + BAR_INTERVAL_SECONDS * 1000) MarketType.spot =
        [100, 100, 100] from by decide]
      simp [List.filter, hd100, OUTLIER_THRESHOLD_BPS]
      decide
    rw [hpo]
    decide
  have hpoo : postOutlierPrices
      (agg_build_inputs c4_bars freshVenueState (fun b => b.open_))
      (0 * 1000 + BAR_INTERVAL_SECONDS * 1000) MarketType.spot = [100] := by
    unfold postOutlierPrices
    rw [show refMedian
      (agg_build_inputs c4_bars freshVenueState (fun b => b.open_))
      (0 * 1000 + BAR_INTERVAL_SECONDS * 1000) MarketType.spot =
      some 100 from by decide]
    rw [show survivingPrices
      (agg_build_inputs c4_bars freshVenueState (fun b => b.open_))
      (0 * 1000 + BAR_INTERVAL_SECONDS * 1000) MarketType.spot =
      [90, 100, 111] from by decide]
    simp [List.filter, hd90, hd100, hd111, OUTLIER_THRESHOLD_BPS]
    norm_num
  constructor
  · rw [agg_is_gap]
    exact hgapc
  · rw [agg_open, hgapc]
    simp only [Bool.false_eq_true, if_false]
    unfold aggComponentResult
    rw [fo_price, hpoo]
    simp

/-! ### Close-result flow summation facts -/

lemma agg_volume (asset : AssetId) (mt : MarketType) (bar_time : ℤ)
    (venue_bars : List (VenueId × Option Bar))
    (venue_state : VenueId → Bool × Option ℤ) :
    (agg_build_composite asset mt bar_time venue_bars venue_state).1.volume
      = (if (aggComponentResult venue_bars venue_state bar_time mt
              (fun b => b.close)).is_gap
         then 0
         else agg_sum_field venue_bars
           (((aggComponentResult venue_bars venue_state bar_time mt
                (fun b => b.close)).venues.filter
              (fun c => c.included)).map (fun c => c.venue))
           (fun b => b.volume)) := rfl

lemma agg_buy_volume (asset : AssetId) (mt : MarketType) (bar_time : ℤ)
    (venue_bars : List (VenueId × Option Bar))
    (venue_state : VenueId → Bool × Option ℤ) :
    (agg_build_composite asset mt bar_time venue_bars
        venue_state).1.buy_volume
      = (if (aggComponentResult venue_bars venue_state bar_time mt
              (fun b => b.close)).is_gap
         then 0
         else agg_sum_field venue_bars
           (((aggComponentResult venue_bars venue_state bar_time mt
                (fun b => b.close)).venues.filter
              (fun c => c.included)).map (fun c => c.venue))
           (fun b => b.buy_volume)) := rfl

lemma agg_sell_volume (asset : AssetId) (mt : MarketType) (bar_time : ℤ)
    (venue_bars : List (VenueId × Option Bar))
    (venue_state : VenueId → Bool × Option ℤ) :
    (agg_build_composite asset mt bar_time venue_bars
        venue_state).1.sell_volume
      = (if (aggComponentResult venue_bars venue_state bar_time mt
              (fun b => b.close)).is_gap
         then 0
         else agg_sum_field venue_bars
           (((aggComponentResult venue_bars venue_state bar_time mt
                (fun b => b.close)).venues.filter
              (fun c => c.included)).map (fun c => c.venue))
           (fun b => b.sell_volume)) := rfl

lemma agg_buy_count (asset : AssetId) (mt : MarketType) (bar_time : ℤ)
    (venue_bars : List (VenueId × Option Bar))
    (venue_state : VenueId → Bool × Option ℤ) :
    (agg_build_composite asset mt bar_time venue_bars
        venue_state).1.buy_count
      = (if (aggComponentResult venue_bars venue_state bar_time mt
              (fun b => b.close)).is_gap
         then 0
         else agg_sum_count venue_bars
           (((aggComponentResult venue_bars venue_state bar_time mt
                (fun b => b.close)).venues.filter
              (fun c => c.included)).map (fun c => c.venue))
           (fun b => b.buy_count)) := rfl

lemma agg_sell_count (asset : AssetId) (mt : MarketType) (bar_time : ℤ)
    (venue_bars : List (VenueId × Option Bar))
    (venue_state : VenueId → Bool × Option ℤ) :
    (agg_build_composite asset mt bar_time venue_bars
        venue_state).1.sell_count
      = (if (aggComponentResult venue_bars venue_state bar_time mt
              (fun b => b.close)).is_gap
         then 0
         else agg_sum_count venue_bars
           (((aggComponentResult venue_bars venue_state bar_time mt
                (fun b => b.close)).venues.filter
              (fun c => c.included)).map (fun c => c.venue))
           (fun b => b.sell_count)) := rfl

lemma agg_included_venues (asset : AssetId) (mt : MarketType)
    (bar_time : ℤ) (venue_bars : List (VenueId × Option Bar))
    (venue_state : VenueId → Bool × Option ℤ) :
    (agg_build_composite asset mt bar_time venue_bars
        venue_state).1.included_venues
      = ((aggComponentResult venue_bars venue_state bar_time mt
          (fun b => b.close)).venues.filter
            (fun c => c.included)).map (fun c => c.venue) := rfl

lemma agg_excluded_venues (asset : AssetId) (mt : MarketType)
    (bar_time : ℤ) (venue_bars : List (VenueId × Option Bar))
    (venue_state : VenueId → Bool × Option ℤ) :
    (agg_build_composite asset mt bar_time venue_bars
        venue_state).1.excluded_venues
      = (aggComponentResult venue_bars venue_state bar_time mt
          (fun b => b.close)).venues.filterMap
            (fun c => c.exclude_reason.map (fun r => (c.venue, r))) := rfl

lemma agg_sum_field_foldl (venue_bars : List (VenueId × Option Bar))
    (inc : List VenueId) (f : Bar → ℚ) (acc : ℚ) :
    venue_bars.foldl (fun a vb =>
      match vb.2 with
      | some b => if vb.1 ∈ inc then a + f b else a
      | none => a) acc =
    acc + (((venue_bars.filter (fun vb => decide (vb.1 ∈ inc))).filterMap
      (fun vb => vb.2)).map f).sum := by
  induction venue_bars generalizing acc with
  | nil => simp
  | cons vb rest ih =>
      rcases vb with ⟨v, ob⟩
      cases ob with
      | none =>
          by_cases hv : v ∈ inc <;>
            simp [List.filter_cons, hv, ih]
      | some b =>
          by_cases hv : v ∈ inc
          · simp only [List.foldl_cons]
            rw [if_pos hv, ih (acc + f b)]
            simp [List.filter_cons, hv, add_assoc]
          · simp [List.filter_cons, hv, ih]

/-- The close-included volume summation equals the sum of the field over
exactly the venue bars whose venue is in the included set: a venue
excluded by the close result contributes nothing. -/
lemma agg_sum_field_eq (venue_bars : List (VenueId × Option Bar))
    (inc : List VenueId) (f : Bar → ℚ) :
    agg_sum_field venue_bars inc f =
      (((venue_bars.filter (fun vb => decide (vb.1 ∈ inc))).filterMap
        (fun vb => vb.2)).map f).sum := by
  unfold agg_sum_field
  rw [agg_sum_field_foldl]
  simp

lemma agg_sum_count_foldl (venue_bars : List (VenueId × Option Bar))
    (inc : List VenueId) (f : Bar → ℕ) (acc : ℕ) :
    venue_bars.foldl (fun a vb =>
      match vb.2 with
      | some b => if vb.1 ∈ inc then a + f b else a
      | none => a) acc =
    acc + (((venue_bars.filter (fun vb => decide (vb.1 ∈ inc))).filterMap
      (fun vb => vb.2)).map f).sum := by
  induction venue_bars generalizing acc with
  | nil => simp
  | cons vb rest ih =>
      rcases vb with ⟨v, ob⟩
      cases ob with
      | none =>
          by_cases hv : v ∈ inc <;>
            simp [List.filter_cons, hv, ih]
      | some b =>
          by_cases hv : v ∈ inc
          · simp only [List.foldl_cons]
            rw [if_pos hv, ih (acc + f b)]
            simp [List.filter_cons, hv, add_assoc]
          · simp [List.filter_cons, hv, ih]

lemma agg_sum_count_eq (venue_bars : List (VenueId × Option Bar))
    (inc : List VenueId) (f : Bar → ℕ) :
    agg_sum_count venue_bars inc f =
      (((venue_bars.filter (fun vb => decide (vb.1 ∈ inc))).filterMap
        (fun vb => vb.2)).map f).sum := by
  unfold agg_sum_count
  rw [agg_sum_count_foldl]
  simp

/-- C5 (amended): included_venues and excluded_venues of the realtime
composite are derived from the close result alone, and for a non-gap
composite each flow field equals the sum of the corresponding bar field
over exactly those venue bars whose venue the close result includes — a
venue excluded for the close contributes nothing (for a gap composite the
stored flow fields are zeroed instead). -/
theorem claim_C5_close_flow (asset : AssetId) (mt : MarketType)
    (bar_time : ℤ) (venue_bars : List (VenueId × Option Bar))
    (venue_state : VenueId → Bool × Option ℤ) :
    ((agg_build_composite asset mt bar_time venue_bars
        venue_state).1.included_venues =
      ((agg_build_composite asset mt bar_time venue_bars
        venue_state).2.venues.filter (fun c => c.included)).map
          (fun c => c.venue)) ∧
    ((agg_build_composite asset mt bar_time venue_bars
        venue_state).1.excluded_venues =
      (agg_build_composite asset mt bar_time venue_bars
        venue_state).2.venues.filterMap
          (fun c => c.exclude_reason.map (fun r => (c.venue, r)))) ∧
    ((agg_build_composite asset mt bar_time venue_bars
        venue_state).1.is_gap = false →
      (agg_build_composite asset mt bar_time venue_bars
          venue_state).1.volume =
        (((venue_bars.filter (fun vb => decide (vb.1 ∈
            ((agg_build_composite asset mt bar_time venue_bars
              venue_state).2.venues.filter (fun c => c.included)).map
                (fun c => c.venue)))).filterMap (fun vb => vb.2)).map
          (fun b => b.volume)).sum ∧
      (agg_build_composite asset mt bar_time venue_bars
          venue_state).1.buy_volume =
        (((venue_bars.filter (fun vb => decide (vb.1 ∈
            ((agg_build_composite asset mt bar_time venue_bars
              venue_state).2.venues.filter (fun c => c.included)).map
                (fun c => c.venue)))).filterMap (fun vb => vb.2)).map
          (fun b => b.buy_volume)).sum ∧
      (agg_build_composite asset mt bar_time venue_bars
          venue_state).1.sell_volume =
        (((venue_bars.filter (fun vb => decide (vb.1 ∈
            ((agg_build_composite asset mt bar_time venue_bars
              venue_state).2.venues.filter (fun c => c.included)).map
                (fun c => c.venue)))).filterMap (fun vb => vb.2)).map
          (fun b => b.sell_volume)).sum ∧
      (agg_build_composite asset mt bar_time venue_bars
          venue_state).1.buy_count =
        (((venue_bars.filter (fun vb => decide (vb.1 ∈
            ((agg_build_composite asset mt bar_time venue_bars
              venue_state).2.venues.filter (fun c => c.included)).map
                (fun c => c.venue)))).filterMap (fun vb => vb.2)).map
          (fun b => b.buy_count)).sum ∧
      (agg_build_composite asset mt bar_time venue_bars
          venue_state).1.sell_count =
        (((venue_bars.filter (fun vb => decide (vb.1 ∈
            ((agg_build_composite asset mt bar_time venue_bars
              venue_state).2.venues.filter (fun c => c.included)).map
                (fun c => c.venue)))).filterMap (fun vb => vb.2)).map
          (fun b => b.sell_count)).sum) := by
  rw [agg_close_result]
  refine ⟨agg_included_venues asset mt bar_time venue_bars venue_state,
    agg_excluded_venues asset mt bar_time venue_bars venue_state, ?_⟩
  intro hg
  rw [agg_is_gap] at hg
  refine ⟨?_, ?_, ?_, ?_, ?_⟩
  · rw [agg_volume, hg]
    simp only [Bool.false_eq_true, if_false]
    exact agg_sum_field_eq _ _ _
  · rw [agg_buy_volume, hg]
    simp only [Bool.false_eq_true, if_false]
    exact agg_sum_field_eq _ _ _
  · rw [agg_sell_volume, hg]
    simp only [Bool.false_eq_true, if_false]
    exact agg_sum_field_eq _ _ _
  · rw [agg_buy_count, hg]
    simp only [Bool.false_eq_true, if_false]
    exact agg_sum_count_eq _ _ _
  · rw [agg_sell_count, hg]
    simp only [Bool.false_eq_true, if_false]
    exact agg_sum_count_eq _ _ _

/-- C5 counterexample: a single fresh venue with volume 5 is included by
the close result, yet the (gap) composite stores volume 0, so the stored
volume does not equal the sum over close-included venues — the claim fails
as stated for gap composites. -/
theorem claim_C5_counterexample :
    (agg_build_composite AssetId.btc MarketType.spot 0 c5_bars
        freshVenueState).1.volume = 0 ∧
    agg_sum_field c5_bars
      (((agg_build_composite AssetId.btc MarketType.spot 0 c5_bars
          freshVenueState).2.venues.filter (fun c => c.included)).map
        (fun c => c.venue)) (fun b => b.volume) = 5 := by
  have hd100 : calculate_deviation_bps 100 100 = 0 := by
    norm_num [calculate_deviation_bps]
  have hcu100 : ∀ c, candUpdate (some 100) 100 c =
      { c with deviation_bps := some 0, included := true } := by
    intro c
    simp [candUpdate, hd100, OUTLIER_THRESHOLD_BPS]
  have hv : (aggComponentResult c5_bars freshVenueState 0
      MarketType.spot (fun b => b.close)).venues =
      [⟨.binance, some 100, true, none, some 0⟩] := by
    unfold aggComponentResult
    rw [fo_venues]
    rw [show refMedian
      (agg_build_inputs c5_bars freshVenueState (fun b => b.close))
      (0 * 1000 + BAR_INTERVAL_SECONDS * 1000) MarketType.spot =
      some 100 from by decide]
    rw [show candidatesOf
      (agg_build_inputs c5_bars freshVenueState (fun b => b.close))
      (0 * 1000 + BAR_INTERVAL_SECONDS * 1000) MarketType.spot =
      [(.binance, 100)] from by decide]
    rw [show contribs0Of
      (agg_build_inputs c5_bars freshVenueState (fun b => b.close))
      (0 * 1000 + BAR_INTERVAL_SECONDS * 1000) MarketType.spot =
      [⟨.binance, some 100, false, none, none⟩] from by decide]
    simp only [phase3Contribs, List.foldl_cons, List.foldl_nil, applyCand,
      updateFirst, hcu100]
    decide
  have hgap : (aggComponentResult c5_bars freshVenueState 0
      MarketType.spot (fun b => b.close)).is_gap = true := by
    unfold aggComponentResult
    rw [fo_is_gap]
    rw [show postOutlierPrices
      (agg_build_inputs c5_bars freshVenueState (fun b => b.close))
      (0 * 1000 + BAR_INTERVAL_SECONDS * 1000) MarketType.spot =
      [100] from by
        unfold postOutlierPrices
        rw [show refMedian
          (agg_build_inputs c5_bars freshVenueState (fun b => b.close))
          (0 * 1000 + BAR_INTERVAL_SECONDS * 1000) MarketType.spot =
          some 100 from by decide]
        rw [show survivingPrices
          (agg_build_inputs c5_bars freshVenueState (fun b => b.close))
          (0 * 1000 + BAR_INTERVAL_SECONDS * 1000) MarketType.spot =
          [100] from by decide]
        simp [List.filter, hd100, OUTLIER_THRESHOLD_BPS]
        decide]
    decide
  constructor
  · rw [agg_volume, hgap]
    rfl
  · rw [agg_close_result, hv]
    simp [agg_sum_field, c5_bars, mkBar]

/-- C5 witness: with the three concordant-close venue bars of the C4
scenario the composite is not a gap and its volume is the sum over the
close-included venues. -/
theorem claim_C5_witness :
    (agg_build_composite AssetId.btc MarketType.spot 0 c4_bars
        freshVenueState).1.is_gap = false ∧
    (agg_build_composite AssetId.btc MarketType.spot 0 c4_bars
        freshVenueState).1.volume =
      (((c4_bars.filter (fun vb => decide (vb.1 ∈
          ((agg_build_composite AssetId.btc MarketType.spot 0 c4_bars
            freshVenueState).2.venues.filter (fun c => c.included)).map
              (fun c => c.venue)))).filterMap (fun vb => vb.2)).map
        (fun b => b.volume)).sum := by
  have hd100 : calculate_deviation_bps 100 100 = 0 := by
    norm_num [calculate_deviation_bps]
  have hgap : (agg_build_composite AssetId.btc MarketType.spot 0 c4_bars
      freshVenueState).1.is_gap = false := by
    rw [agg_is_gap]
    unfold aggComponentResult
    rw [fo_is_gap]
    rw [show postOutlierPrices
      (agg_build_inputs c4_bars freshVenueState (fun b => b.close))
      (0 * 1000 + BAR_INTERVAL_SECONDS * 1000) MarketType.spot =
      [100, 100, 100] from by
        unfold postOutlierPrices
        rw [show refMedian
          (agg_build_inputs c4_bars freshVenueState (fun b => b.close))
          (0 * 1000 + BAR_INTERVAL_SECONDS * 1000) MarketType.spot =
          some 100 from by decide]
        rw [show survivingPrices
          (agg_build_inputs c4_bars freshVenueState (fun b => b.close))
          (0 * 1000 + BAR_INTERVAL_SECONDS * 1000) MarketType.spot =
          [100, 100, 100] from by decide]
        simp [List.filter, hd100, OUTLIER_THRESHOLD_BPS]
        decide]
    decide
  exact ⟨hgap,
    ((claim_C5_close_flow AssetId.btc MarketType.spot 0 c4_bars
      freshVenueState).2.2 hgap).1⟩

/-! ### Backfill composite versus the §4.4 filter -/

lemma stale_threshold_nonneg (v : VenueId) (mt : MarketType) :
    0 ≤ get_stale_threshold v mt := by
  cases v <;> cases mt <;> decide

/-- All backfill filter inputs are fresh survivors: the surviving prices
are the component prices of every supplied venue bar. -/
lemma spec44_surviving (venue_bars : List (VenueId × Bar)) (g : Bar → ℚ)
    (now : ℤ) (mt : MarketType) :
    survivingPrices
      (venue_bars.map (fun vb =>
        { venue := vb.1, price := some (g vb.2),
          last_update_ms := some now, is_connected := true }))
      now mt = venue_bars.map (fun x => g x.2) := by
  unfold survivingPrices
  rw [List.filter_eq_self.mpr ?hall]
  case hall =>
    intro i hi
    rcases List.mem_map.mp hi with ⟨vb, _, hvb⟩
    subst hvb
    simp [freshSurvivor]
    have := stale_threshold_nonneg vb.1 mt
    omega
  rw [List.map_map]
  rfl

/-- When every venue bar's component price stays within the outlier
threshold of the component median and at least two bars are present, the
§4.4 filter's composite price for that component is the plain median over
all supplied bars. -/
lemma spec44_price (venue_bars : List (VenueId × Bar)) (g : Bar → ℚ)
    (now : ℤ) (mt : MarketType) (hn : 2 ≤ venue_bars.length)
    (hk : ∀ vb ∈ venue_bars,
      calculate_deviation_bps (g vb.2)
        (medianSorted (sortPrices (venue_bars.map (fun x => g x.2)))) ≤
        OUTLIER_THRESHOLD_BPS) :
    (spec44Component venue_bars g now mt).price =
      some (medianSorted (sortPrices (venue_bars.map (fun x => g x.2)))) := by
  unfold spec44Component
  rw [fo_price]
  have hsv := spec44_surviving venue_bars g now mt
  have hne : venue_bars.map (fun x => g x.2) ≠ [] := by
    intro h
    have h2 := congrArg List.length h
    simp at h2
    rw [h2] at hn
    simp at hn
  have hrm : refMedian
      (venue_bars.map (fun vb =>
        { venue := vb.1, price := some (g vb.2),
          last_update_ms := some now, is_connected := true }))
      now mt =
      some (medianSorted (sortPrices (venue_bars.map (fun x => g x.2)))) := by
    unfold refMedian
    rw [hsv]
    unfold calculate_median
    rw [if_neg hne]
  have hpo : postOutlierPrices
      (venue_bars.map (fun vb =>
        { venue := vb.1, price := some (g vb.2),
          last_update_ms := some now, is_connected := true }))
      now mt = venue_bars.map (fun x => g x.2) := by
    unfold postOutlierPrices
    rw [hrm, hsv]
    apply List.filter_eq_self.mpr
    intro p hp
    rcases List.mem_map.mp hp with ⟨vb, hvb, hpvb⟩
    subst hpvb
    simp only [Bool.not_eq_eq_eq_not, Bool.not_true, Bool.not_false,
      decide_eq_false_iff_not, not_lt, gt_iff_lt]
    exact hk vb hvb
  rw [hpo]
  rw [if_neg (by
    rw [List.length_map]
    omega)]
  unfold calculate_median
  rw [if_neg hne]

/-- The backfill composite exists for a non-empty bar set and its OHLC are
the plain medians over all supplied venue bars (no outlier exclusion). -/
lemma backfill_fields (venue_bars : List (VenueId × Bar)) (bar_time : ℤ)
    (asset : AssetId) (mt : MarketType) (h : venue_bars ≠ []) :
    ∃ c, backfill_build_composite venue_bars bar_time asset mt = some c ∧
      c.open_ = some (medianSorted (sortPrices
        (venue_bars.map (fun x => x.2.open_)))) ∧
      c.high = some (medianSorted (sortPrices
        (venue_bars.map (fun x => x.2.high)))) ∧
      c.low = some (medianSorted (sortPrices
        (venue_bars.map (fun x => x.2.low)))) ∧
      c.close = some (medianSorted (sortPrices
        (venue_bars.map (fun x => x.2.close)))) := by
  unfold backfill_build_composite
  rw [if_neg h]
  refine ⟨_, rfl, ?_, ?_, ?_, ?_⟩ <;> simp [List.map_map] <;> rfl

/-- C6 (amended): the backfill composite applies no outlier rule — its
OHLC are the plain medians over all supplied venue bars — and it agrees
with the §4.4 filter (DISCONNECTED modelled by absence, STALE not
applicable since the inputs are fresh) on every bar set with at least two
bars where no venue's component price deviates more than 100 bps from
that component's median; a deviating venue bar is not excluded by the
backfill build. -/
theorem claim_C6_backfill_composite (venue_bars : List (VenueId × Bar))
    (bar_time now : ℤ) (asset : AssetId) (mt : MarketType)
    (hn : 2 ≤ venue_bars.length)
    (hko : ∀ vb ∈ venue_bars,
      calculate_deviation_bps vb.2.open_
        (medianSorted (sortPrices (venue_bars.map (fun x => x.2.open_)))) ≤
        OUTLIER_THRESHOLD_BPS)
    (hkh : ∀ vb ∈ venue_bars,
      calculate_deviation_bps vb.2.high
        (medianSorted (sortPrices (venue_bars.map (fun x => x.2.high)))) ≤
        OUTLIER_THRESHOLD_BPS)
    (hkl : ∀ vb ∈ venue_bars,
      calculate_deviation_bps vb.2.low
        (medianSorted (sortPrices (venue_bars.map (fun x => x.2.low)))) ≤
        OUTLIER_THRESHOLD_BPS)
    (hkc : ∀ vb ∈ venue_bars,
      calculate_deviation_bps vb.2.close
        (medianSorted (sortPrices (venue_bars.map (fun x => x.2.close)))) ≤
        OUTLIER_THRESHOLD_BPS) :
    ∃ c, backfill_build_composite venue_bars bar_time asset mt = some c ∧
      c.open_ = (spec44Component venue_bars (fun b => b.open_)
        now mt).price ∧
      c.high = (spec44Component venue_bars (fun b => b.high)
        now mt).price ∧
      c.low = (spec44Component venue_bars (fun b => b.low) now mt).price ∧
      c.close = (spec44Component venue_bars (fun b => b.close)
        now mt).price := by
  have hne : venue_bars ≠ [] := by
    intro h
    rw [h] at hn
    simp at hn
  rcases backfill_fields venue_bars bar_time asset mt hne with
    ⟨c, hc, ho, hh, hl, hcl⟩
  refine ⟨c, hc, ?_, ?_, ?_, ?_⟩
  · rw [ho, spec44_price venue_bars (fun b => b.open_) now mt hn hko]
  · rw [hh, spec44_price venue_bars (fun b => b.high) now mt hn hkh]
  · rw [hl, spec44_price venue_bars (fun b => b.low) now mt hn hkl]
  · rw [hcl, spec44_price venue_bars (fun b => b.close) now mt hn hkc]

/-- C6 counterexample: with closes 94000 / 94100 / 95200 the backfill
build keeps all three bars and stores close 94100, while the §4.4 filter
excludes 95200 as an outlier (about 117 bps) and yields 94050 — the
backfill composite does not apply the outlier rules. -/
theorem claim_C6_counterexample :
    (backfill_build_composite c6_bars 0 AssetId.btc MarketType.spot).map
      (fun c => c.close) = some (some 94100) ∧
    (spec44Component c6_bars (fun b => b.close) 60000
      MarketType.spot).price = some 94050 ∧
    (some (94100 : ℚ) : Option ℚ) ≠ some 94050 := by
  have hdA : calculate_deviation_bps 94000 94100 = 10000/941 := by
    norm_num [calculate_deviation_bps, abs_div]
  have hdB : calculate_deviation_bps 94100 94100 = 0 := by
    norm_num [calculate_deviation_bps]
  have hdC : calculate_deviation_bps 95200 94100 = 110000/941 := by
    norm_num [calculate_deviation_bps, abs_div]
  refine ⟨by decide, ?_, by decide⟩
  unfold spec44Component
  rw [fo_price]
  have hpo : postOutlierPrices
      (c6_bars.map (fun vb =>
        { venue := vb.1, price := some vb.2.close,
          last_update_ms := some 60000, is_connected := true }))
      60000 MarketType.spot = [94000, 94100] := by
    unfold postOutlierPrices
    rw [show refMedian
      (c6_bars.map (fun vb =>
        { venue := vb.1, price := some vb.2.close,
          last_update_ms := some 60000, is_connected := true }))
      60000 MarketType.spot = some 94100 from by decide]
    rw [show survivingPrices
      (c6_bars.map (fun vb =>
        { venue := vb.1, price := some vb.2.close,
          last_update_ms := some 60000, is_connected := true }))
      60000 MarketType.spot = [94000, 94100, 95200] from by decide]
    simp [List.filter, hdA, hdB, hdC, OUTLIER_THRESHOLD_BPS]
    norm_num
  rw [hpo]
  rw [if_neg (by norm_num)]
  unfold calculate_median
  rw [if_neg (by simp : ¬([94000, 94100] : List ℚ) = [])]
  norm_num [sortPrices, medianSorted, List.insertionSort,
    List.orderedInsert]

/-- C6 witness: three fully concordant venue bars at price 100 satisfy the
no-outlier hypotheses and the backfill composite's OHLC coincide with the
§4.4 filter prices. -/
theorem claim_C6_witness :
    (2 ≤ c6w_bars.length ∧
     (∀ vb ∈ c6w_bars, calculate_deviation_bps vb.2.open_
        (medianSorted (sortPrices (c6w_bars.map (fun x => x.2.open_)))) ≤
        OUTLIER_THRESHOLD_BPS) ∧
     (∀ vb ∈ c6w_bars, calculate_deviation_bps vb.2.high
        (medianSorted (sortPrices (c6w_bars.map (fun x => x.2.high)))) ≤
        OUTLIER_THRESHOLD_BPS) ∧
     (∀ vb ∈ c6w_bars, calculate_deviation_bps vb.2.low
        (medianSorted (sortPrices (c6w_bars.map (fun x => x.2.low)))) ≤
        OUTLIER_THRESHOLD_BPS) ∧
     (∀ vb ∈ c6w_bars, calculate_deviation_bps vb.2.close
        (medianSorted (sortPrices (c6w_bars.map (fun x => x.2.close)))) ≤
        OUTLIER_THRESHOLD_BPS)) ∧
    (∃ c, backfill_build_composite c6w_bars 0 AssetId.btc
        MarketType.spot = some c ∧
      c.open_ = (spec44Component c6w_bars (fun b => b.open_) 60000
        MarketType.spot).price ∧
      c.high = (spec44Component c6w_bars (fun b => b.high) 60000
        MarketType.spot).price ∧
      c.low = (spec44Component c6w_bars (fun b => b.low) 60000
        MarketType.spot).price ∧
      c.close = (spec44Component c6w_bars (fun b => b.close) 60000
        MarketType.spot).price) := by
  have hdev : calculate_deviation_bps 100 100 ≤ OUTLIER_THRESHOLD_BPS := by
    norm_num [calculate_deviation_bps, OUTLIER_THRESHOLD_BPS]
  have hko : ∀ vb ∈ c6w_bars, calculate_deviation_bps vb.2.open_
      (medianSorted (sortPrices (c6w_bars.map (fun x => x.2.open_)))) ≤
      OUTLIER_THRESHOLD_BPS := by
    intro vb hvb
    rw [show medianSorted (sortPrices (c6w_bars.map (fun x => x.2.open_)))
      = 100 from by decide]
    fin_cases hvb <;> exact hdev
  have hkh : ∀ vb ∈ c6w_bars, calculate_deviation_bps vb.2.high
      (medianSorted (sortPrices (c6w_bars.map (fun x => x.2.high)))) ≤
      OUTLIER_THRESHOLD_BPS := by
    intro vb hvb
    rw [show medianSorted (sortPrices (c6w_bars.map (fun x => x.2.high)))
      = 100 from by decide]
    fin_cases hvb <;> exact hdev
  have hkl : ∀ vb ∈ c6w_bars, calculate_deviation_bps vb.2.low
      (medianSorted (sortPrices (c6w_bars.map (fun x => x.2.low)))) ≤
      OUTLIER_THRESHOLD_BPS := by
    intro vb hvb
    rw [show medianSorted (sortPrices (c6w_bars.map (fun x => x.2.low)))
      = 100 from by decide]
    fin_cases hvb <;> exact hdev
  have hkc : ∀ vb ∈ c6w_bars, calculate_deviation_bps vb.2.close
      (medianSorted (sortPrices (c6w_bars.map (fun x => x.2.close)))) ≤
      OUTLIER_THRESHOLD_BPS := by
    intro vb hvb
    rw [show medianSorted (sortPrices (c6w_bars.map (fun x => x.2.close)))
      = 100 from by decide]
    fin_cases hvb <;> exact hdev
  exact ⟨⟨by decide, hko, hkh, hkl, hkc⟩,
    claim_C6_backfill_composite c6w_bars 0 60000 AssetId.btc
      MarketType.spot (by decide) hko hkh hkl hkc⟩

/-! ### Backfill result accounting -/

lemma backfill_foldl_gaps_found (gaps : List ℤ)
    (fetch : ℤ → List (VenueId × Except String (List Trade)))
    (asset : AssetId) (mt : MarketType) (r0 : BackfillResult) :
    (gaps.foldl (backfill_step fetch asset mt) r0).gaps_found =
      r0.gaps_found := by
  induction gaps generalizing r0 with
  | nil => rfl
  | cons g rest ih =>
      rw [List.foldl_cons, ih]
      unfold backfill_step
      by_cases hn : backfill_single_gap g (fetch g) asset mt > 0 <;>
        simp [hn]

lemma backfill_foldl_errors (gaps : List ℤ)
    (fetch : ℤ → List (VenueId × Except String (List Trade)))
    (asset : AssetId) (mt : MarketType) (r0 : BackfillResult) :
    (gaps.foldl (backfill_step fetch asset mt) r0).errors = r0.errors := by
  induction gaps generalizing r0 with
  | nil => rfl
  | cons g rest ih =>
      rw [List.foldl_cons, ih]
      unfold backfill_step
      by_cases hn : backfill_single_gap g (fetch g) asset mt > 0 <;>
        simp [hn]

lemma backfill_foldl_repaired (gaps : List ℤ)
    (fetch : ℤ → List (VenueId × Except String (List Trade)))
    (asset : AssetId) (mt : MarketType) (r0 : BackfillResult) :
    (gaps.foldl (backfill_step fetch asset mt) r0).bars_repaired =
      r0.bars_repaired + gaps.countP
        (fun g => decide (0 < backfill_single_gap g (fetch g) asset mt)) := by
  induction gaps generalizing r0 with
  | nil => simp
  | cons g rest ih =>
      rw [List.foldl_cons, List.countP_cons, ih]
      unfold backfill_step
      by_cases hn : 0 < backfill_single_gap g (fetch g) asset mt
      · rw [if_pos hn]
        simp [hn]
        omega
      · rw [if_neg hn]
        simp [hn]

lemma backfill_foldl_failed (gaps : List ℤ)
    (fetch : ℤ → List (VenueId × Except String (List Trade)))
    (asset : AssetId) (mt : MarketType) (r0 : BackfillResult) :
    (gaps.foldl (backfill_step fetch asset mt) r0).bars_failed =
      r0.bars_failed + gaps.countP
        (fun g => decide (backfill_single_gap g (fetch g) asset mt = 0)) := by
  induction gaps generalizing r0 with
  | nil => simp
  | cons g rest ih =>
      rw [List.foldl_cons, List.countP_cons, ih]
      unfold backfill_step
      by_cases hn : 0 < backfill_single_gap g (fetch g) asset mt
      · rw [if_pos hn]
        have hz : ¬ backfill_single_gap g (fetch g) asset mt = 0 := by
          omega
        simp [hz]
      · rw [if_neg hn]
        have hz : backfill_single_gap g (fetch g) asset mt = 0 := by
          omega
        simp [hz]
        omega

lemma backfill_foldl_partition (gaps : List ℤ)
    (fetch : ℤ → List (VenueId × Except String (List Trade)))
    (asset : AssetId) (mt : MarketType) (r0 : BackfillResult) :
    (gaps.foldl (backfill_step fetch asset mt) r0).bars_repaired +
      (gaps.foldl (backfill_step fetch asset mt) r0).bars_failed =
      r0.bars_repaired + r0.bars_failed + gaps.length := by
  induction gaps generalizing r0 with
  | nil => simp
  | cons g rest ih =>
      rw [List.foldl_cons, ih]
      unfold backfill_step
      by_cases hn : backfill_single_gap g (fetch g) asset mt > 0 <;>
        simp [hn] <;> omega

lemma filterMap_filter_not_errored {β : Type}
    (f : VenueId × Except String (List Trade) → Option β)
    (hf : ∀ vf, fetchErrored vf.2 = true → f vf = none)
    (fetches : List (VenueId × Except String (List Trade))) :
    fetches.filterMap f =
      (fetches.filter (fun vf => !fetchErrored vf.2)).filterMap f := by
  induction fetches with
  | nil => rfl
  | cons vf rest ih =>
      by_cases he : fetchErrored vf.2 = true
      · simp only [List.filterMap_cons, List.filter_cons, he, hf vf he]
        simpa using ih
      · simp only [List.filterMap_cons, List.filter_cons, he]
        cases hv : f vf <;> simp [hv, ih]

/-- Dropping the venues whose fetch raised changes nothing in a single
gap's repair: erroring venues are skipped entirely. -/
lemma backfill_single_gap_filter_errors (g : ℤ)
    (fetches : List (VenueId × Except String (List Trade)))
    (asset : AssetId) (mt : MarketType) :
    backfill_single_gap g fetches asset mt =
      backfill_single_gap g
        (fetches.filter (fun vf => !fetchErrored vf.2)) asset mt := by
  unfold backfill_single_gap
  rw [← filterMap_filter_not_errored _ (by
    rintro ⟨v, r⟩ he
    cases r with
    | error e => rfl
    | ok trades => simp [fetchErrored] at he) fetches]

/-- C8 (amended): backfill_gaps returns a single aggregated result in
which every gap found is counted in exactly one of bars_repaired or
bars_failed, a gap with fewer than 2 venue bars is counted failed, and
venue-level fetch errors are skipped — the erroring venue contributes
nothing and processing of the remaining venues and minutes continues —
without being recorded in the result's errors list (which only receives
gap-level exceptions, not modelled here). -/
theorem claim_C8_backfill_result (gaps : List ℤ)
    (fetch : ℤ → List (VenueId × Except String (List Trade)))
    (asset : AssetId) (mt : MarketType) :
    (backfill_gaps gaps fetch asset mt).gaps_found = gaps.length ∧
    (backfill_gaps gaps fetch asset mt).errors = [] ∧
    (backfill_gaps gaps fetch asset mt).bars_repaired = gaps.countP
      (fun g => decide (0 < backfill_single_gap g (fetch g) asset mt)) ∧
    (backfill_gaps gaps fetch asset mt).bars_failed = gaps.countP
      (fun g => decide (backfill_single_gap g (fetch g) asset mt = 0)) ∧
    (backfill_gaps gaps fetch asset mt).bars_repaired +
      (backfill_gaps gaps fetch asset mt).bars_failed = gaps.length ∧
    (∀ (g : ℤ) (fetches : List (VenueId × Except String (List Trade))),
      (fetches.filterMap (fun vf =>
        match vf.2 with
        | .error _ => none
        | .ok trades =>
            if trades = [] then none
            else (build_bar_from_trades trades g vf.1 asset mt).map
              (fun b => (vf.1, b)))).length < 2 →
      backfill_single_gap g fetches asset mt = 0) ∧
    (∀ (g : ℤ) (fetches : List (VenueId × Except String (List Trade))),
      backfill_single_gap g fetches asset mt =
        backfill_single_gap g
          (fetches.filter (fun vf => !fetchErrored vf.2)) asset mt) := by
  refine ⟨?_, ?_, ?_, ?_, ?_, ?_,
    fun g fetches => backfill_single_gap_filter_errors g fetches asset mt⟩
  · rw [backfill_gaps, backfill_foldl_gaps_found]
  · rw [backfill_gaps, backfill_foldl_errors]
  · rw [backfill_gaps, backfill_foldl_repaired]
    simp
  · rw [backfill_gaps, backfill_foldl_failed]
    simp
  · rw [backfill_gaps, backfill_foldl_partition]
    simp
  · intro g fetches h
    unfold backfill_single_gap
    rw [if_pos h]

/-- C8 witness: with no fetch outcomes a gap has zero venue bars, below
quorum, and its repair returns 0. -/
theorem claim_C8_witness :
    (([] : List (VenueId × Except String (List Trade))).filterMap
      (fun vf =>
        match vf.2 with
        | .error _ => none
        | .ok trades =>
            if trades = [] then none
            else (build_bar_from_trades trades 0 vf.1 AssetId.btc
              MarketType.spot).map (fun b => (vf.1, b)))).length < 2 ∧
    backfill_single_gap 0 [] AssetId.btc MarketType.spot = 0 :=
  ⟨by decide,
    (claim_C8_backfill_result [] (fun _ => []) AssetId.btc
      MarketType.spot).2.2.2.2.2.1 0 [] (by decide)⟩

/-- C8 counterexample: a gap whose Binance fetch raises while Kraken and
OKX return trades is still repaired, but the fetch error is only logged —
the result's errors list stays empty, so per-venue REST fetch errors are
not recorded as the claim states. -/
theorem claim_C8_counterexample :
    c8_fetch 0 = [(.binance, .error "boom"), (.kraken, .ok [c8_tradeK]),
      (.okx, .ok [c8_tradeO])] ∧
    (backfill_gaps [0] c8_fetch AssetId.btc MarketType.spot).errors
      = [] ∧
    (backfill_gaps [0] c8_fetch AssetId.btc
      MarketType.spot).bars_repaired = 1 ∧
    (backfill_gaps [0] c8_fetch AssetId.btc MarketType.spot).bars_failed
      = 0 := by
  refine ⟨rfl, by decide, by decide, by decide⟩

end Abacus
